import Mathlib

/-!
Shallow embedding of the generation-orchestration core of the
`dataset_generator` repository (variation router, model layer,
orchestrator, adapters, coverage and integrity checkers), together
with theorems settling the frozen claims about it.

Python dictionaries are embedded as association lists with unique keys
(`Dict`), Python exceptions as `Except String`, and pydantic model
construction as smart constructors (`TestCase.make`, `DatasetExample.make`,
`InputData.make`) that run the field validators in declaration order and
return the first failure.
-/

namespace DatasetGen

set_option maxRecDepth 10000

/-- A Python value as it occurs in the parameter dictionaries of
`variation_router.py`: strings, booleans, and (for the `_variation_axes`
tag) lists of strings. -/
inductive Val where
  | s (v : String)
  | b (v : Bool)
  | axes (v : List String)
deriving DecidableEq, Repr

/-- A Python dict with `String` keys, embedded as an association list
(keys unique, insertion order preserved, as in CPython). -/
abbrev Dict := List (String × Val)

/-- `d[k]` lookup (first matching key). -/
def dlookup : Dict → String → Option Val
  | [], _ => none
  | (k', v) :: rest, k => if k' = k then some v else dlookup rest k

/-- Python `k in d`. -/
def dcontains (d : Dict) (k : String) : Bool :=
  (dlookup d k).isSome

/-- Python `d.pop(k, default)`: returns the removed value (if present)
and the dictionary without the key. -/
def dpop : Dict → String → Option Val × Dict
  | [], _ => (none, [])
  | (k', v) :: rest, k =>
    if k' = k then (some v, rest)
    else
      let r := dpop rest k
      (r.1, (k', v) :: r.2)

/-- Python `s.startswith(pre)`. -/
def pyStartsWith (s pre : String) : Bool :=
  pre.data.isPrefixOf s.data

/-- Python `f"{n:03d}"` for a natural number: zero-pad the decimal
representation to at least three digits. -/
def pad3 (n : Nat) : String :=
  let s := toString n
  String.mk (List.replicate (3 - s.length) '0') ++ s

/-- Python `use_case_id.replace('uc_', '')` on the character list:
remove every (left-to-right, non-overlapping) occurrence of `"uc_"`. -/
def stripUcAux : List Char → List Char
  | [] => []
  | [c] => [c]
  | [c, c'] => [c, c']
  | c :: c' :: c'' :: rest =>
    if c = 'u' ∧ c' = 'c' ∧ c'' = '_' then stripUcAux rest
    else c :: stripUcAux (c' :: c'' :: rest)

/-- Python `use_case_id.replace('uc_', '')`. -/
def stripUc (s : String) : String :=
  String.mk (stripUcAux s.data)

/-- Whether a character list contains an occurrence of `"uc_"`. -/
def hasUc : List Char → Bool
  | [] => false
  | [_] => false
  | [_, _] => false
  | c :: c' :: c'' :: rest =>
    if c = 'u' ∧ c' = 'c' ∧ c'' = '_' then true
    else hasUc (c' :: c'' :: rest)

/-! ## Model layer (`models/test_case.py`, `models/dataset_example.py`) -/

/-- Message role (`Literal["user", "operator", "assistant", "system"]`). -/
inductive Role where
  | user
  | operator
  | assistant
  | system
deriving DecidableEq, Repr

/-- `Message` model: a single role-tagged message. -/
structure Message where
  role : Role
  content : String
deriving DecidableEq, Repr

/-- `InputData` model (fields only; the validators live in
`InputData.make`). -/
structure InputData where
  messages : List Message
  target_message_index : Option Int
deriving DecidableEq, Repr

/-- Pydantic construction of `InputData`: `messages` has
`min_length=1`, and the `validate_target_message_index` model validator
requires `0 <= target_message_index < len(messages)` and that the
target message's role is `"operator"`. -/
def InputData.make (messages : List Message) (tmi : Option Int) :
    Except String InputData :=
  if messages.length < 1 then
    .error "messages: List should have at least 1 item"
  else
    match tmi with
    | none => .ok ⟨messages, none⟩
    | some idx =>
      if ¬ (0 ≤ idx ∧ idx < (messages.length : Int)) then
        .error s!"target_message_index={idx} is out of range for messages list of length {messages.length}"
      else
        match messages[idx.toNat]? with
        | some m =>
          if m.role ≠ Role.operator then
            .error s!"target_message_index must point to an operator message"
          else
            .ok ⟨messages, some idx⟩
        | none =>
          .error s!"target_message_index={idx} is out of range for messages list of length {messages.length}"

/-- `TestCase` model (fields only; validators in `TestCase.make`).
`metadata` is embedded as a string-to-string association list. -/
structure TestCase where
  id : String
  use_case_id : String
  name : String
  description : String
  parameter_variation_axes : List String
  metadata : List (String × String)
  case : String
  parameters : Dict
  policy_ids : List String
deriving DecidableEq, Repr

/-- Pydantic construction of `TestCase`: field validators in declaration
order — `id` must start with `tc_`, `use_case_id` with `uc_`,
`parameter_variation_axes` must have 2–3 items, and every entry of
`policy_ids` must start with `pol_`. -/
def TestCase.make (id use_case_id name description : String)
    (parameter_variation_axes : List String)
    (metadata : List (String × String)) (case : String)
    (parameters : Dict) (policy_ids : List String) :
    Except String TestCase :=
  if ¬ pyStartsWith id "tc_" then
    .error s!"TestCase ID must start with tc_, got: {id}"
  else if ¬ pyStartsWith use_case_id "uc_" then
    .error s!"TestCase use_case_id must start with uc_, got: {use_case_id}"
  else if ¬ (2 ≤ parameter_variation_axes.length ∧ parameter_variation_axes.length ≤ 3) then
    .error s!"TestCase must have 2-3 parameter_variation_axes, got: {parameter_variation_axes.length}"
  else
    match policy_ids.find? (fun pid => ¬ pyStartsWith pid "pol_") with
    | some pid => .error s!"All policy_ids must start with pol_, got: {pid}"
    | none =>
      .ok ⟨id, use_case_id, name, description, parameter_variation_axes,
           metadata, case, parameters, policy_ids⟩

/-- `DatasetExample` model (fields only; validators in
`DatasetExample.make`). -/
structure DatasetExample where
  id : String
  case : String
  format : String
  use_case_id : String
  test_case_id : String
  input : InputData
  expected_output : String
  evaluation_criteria : List String
  policy_ids : List String
  metadata : List (String × String)
deriving DecidableEq, Repr

/-- Pydantic construction of `DatasetExample`: `id` must start with
`ex_`, `use_case_id` with `uc_`, `test_case_id` with `tc_`, at least 3
`evaluation_criteria`, and at least 1 `policy_ids` entry all starting
with `pol_`. The `input` argument is an already-validated `InputData`
(pydantic validates the nested model first). -/
def DatasetExample.make (id case format use_case_id test_case_id : String)
    (input : InputData) (expected_output : String)
    (evaluation_criteria : List String) (policy_ids : List String)
    (metadata : List (String × String)) : Except String DatasetExample :=
  if ¬ pyStartsWith id "ex_" then
    .error s!"DatasetExample ID must start with ex_, got: {id}"
  else if ¬ pyStartsWith use_case_id "uc_" then
    .error s!"DatasetExample use_case_id must start with uc_, got: {use_case_id}"
  else if ¬ pyStartsWith test_case_id "tc_" then
    .error s!"DatasetExample test_case_id must start with tc_, got: {test_case_id}"
  else if evaluation_criteria.length < 3 then
    .error s!"DatasetExample must have at least 3 evaluation_criteria, got: {evaluation_criteria.length}"
  else if policy_ids.length < 1 then
    .error s!"DatasetExample must have at least 1 policy_id, got: {policy_ids.length}"
  else
    match policy_ids.find? (fun pid => ¬ pyStartsWith pid "pol_") with
    | some pid => .error s!"All policy_ids must start with pol_, got: {pid}"
    | none =>
      .ok ⟨id, case, format, use_case_id, test_case_id, input,
           expected_output, evaluation_criteria, policy_ids, metadata⟩

/-- Whether a construction attempt raised (returned a validation error). -/
def raises {α : Type} : Except String α → Bool
  | .error _ => true
  | .ok _ => false

/-! ## Variation router (`generation/variation_router.py`) -/

/-- `VARIATION_AXES["support_bot"]`. -/
def supportBotAxes : List (String × List Val) :=
  [("tone", [.s "neutral", .s "negative", .s "aggressive"]),
   ("has_order_id", [.b true, .b false]),
   ("requires_account_access", [.b true, .b false]),
   ("language", [.s "ru", .s "en"]),
   ("adversarial", [.s "none", .s "profanity", .s "injection", .s "garbage"])]

/-- `VARIATION_AXES["operator_quality"]`. -/
def operatorQualityAxes : List (String × List Val) :=
  [("phrase_length", [.s "short", .s "medium", .s "long"]),
   ("punctuation_errors", [.s "none", .s "minor", .s "severe"]),
   ("slang_profanity_emoji", [.s "none", .s "moderate", .s "excessive"]),
   ("medical_terms", [.s "none", .s "present"]),
   ("user_aggression", [.s "neutral", .s "frustrated", .s "angry"]),
   ("escalation_needed", [.s "no", .s "yes"])]

/-- `VARIATION_AXES["doctor_booking"]` (the source repeats the
support-bot axis literals for this case). -/
def doctorBookingAxes : List (String × List Val) :=
  [("tone", [.s "neutral", .s "negative", .s "aggressive"]),
   ("has_order_id", [.b true, .b false]),
   ("requires_account_access", [.b true, .b false]),
   ("language", [.s "ru", .s "en"]),
   ("adversarial", [.s "none", .s "profanity", .s "injection", .s "garbage"])]

/-- `VARIATION_AXES.get(case)` followed by the unknown-case fallback to
the support-bot table (`if not axes: ... axes = VARIATION_AXES["support_bot"]`),
written as a case split over the three keys of the module-level dict. -/
def axesFor (case : String) : List (String × List Val) :=
  if case = "support_bot" then supportBotAxes
  else if case = "operator_quality" then operatorQualityAxes
  else if case = "doctor_booking" then doctorBookingAxes
  else supportBotAxes

/-- The `defaults` dict of `_select_variation_axes`. -/
def defaultsTable : Dict :=
  [("tone", .s "neutral"),
   ("has_order_id", .b true),
   ("requires_account_access", .b false),
   ("language", .s "ru"),
   ("adversarial", .s "none"),
   ("phrase_length", .s "medium"),
   ("punctuation_errors", .s "none"),
   ("slang_profanity_emoji", .s "none"),
   ("medical_terms", .s "none"),
   ("user_aggression", .s "neutral"),
   ("escalation_needed", .s "no")]

/-- The `priority` list of `_select_variation_axes`. -/
def priorityAxes : List String :=
  ["adversarial", "escalation_needed", "user_aggression", "tone",
   "punctuation_errors", "slang_profanity_emoji", "requires_account_access"]

/-- The `for axis in default_axes` padding loop of
`_select_variation_axes`: append each default axis that is not yet
selected and occurs in the parameters, stopping as soon as 2 axes are
selected. -/
def padDefaultAxes (parameters : Dict) : List String → List String → List String
  | acc, [] => acc
  | acc, a :: rest =>
    if a ∉ acc ∧ dcontains parameters a then
      let acc' := acc ++ [a]
      if 2 ≤ acc'.length then acc' else padDefaultAxes parameters acc' rest
    else padDefaultAxes parameters acc rest

/-- The `len > 3` branch of `_select_variation_axes`: stable-sort the
non-default axes by the fixed priority order (priority entries first,
then the remaining axes in their original order) and keep the first 3. -/
def prioritySortAxes (nd : List String) : List String :=
  let sorted := priorityAxes.filter (fun p => p ∈ nd)
  let sorted := nd.foldl (fun s a => if a ∈ s then s else s ++ [a]) sorted
  sorted.take 3

/-- `_select_variation_axes(parameters, case)`. -/
def selectVariationAxes (parameters : Dict) (case : String) : List String :=
  let non_default := (parameters.filter (fun kv =>
    match dlookup defaultsTable kv.1 with
    | some dv => kv.2 ≠ dv
    | none => false)).map Prod.fst
  if 2 ≤ non_default.length ∧ non_default.length ≤ 3 then
    non_default
  else
    let non_default :=
      if non_default.length < 2 then
        let default_axes :=
          if case = "support_bot" then ["tone", "adversarial"]
          else ["punctuation_errors", "user_aggression"]
        padDefaultAxes parameters non_default default_axes
      else non_default
    let non_default :=
      if non_default.length > 3 then prioritySortAxes non_default
      else non_default
    non_default.take 3

/-- All per-axis value combinations of an axis table, as dicts whose
keys come in table order (the order in which both `allpairspy` rows and
the random padding draws are assembled in the source). -/
def allCombos : List (String × List Val) → List Dict
  | [] => [[]]
  | (k, vs) :: rest =>
    vs.flatMap (fun v => (allCombos rest).map (fun d => (k, v) :: d))

/-- The random-padding `while` loop of `generate_variations`: keep
drawing combinations (the stream `draws` supplies the successive
`random.choice` results, one full per-axis combination per draw),
rejecting exact duplicates, until `minTc` combinations are collected.
`none` models the unbounded loop running out of draws. Dict equality is
list equality here because every drawn dict lists the axes in table
order. -/
def padCombos (minTc : Nat) : List Dict → List Dict → Option (List Dict)
  | combos, [] => if combos.length < minTc then none else some combos
  | combos, d :: rest =>
    if combos.length < minTc then
      if d ∈ combos then padCombos minTc combos rest
      else padCombos minTc (combos ++ [d]) rest
    else some combos

/-- The per-combination enrichment step of `generate_variations`:
copy the parameter dict and store the selected dominant axes under the
new key `_variation_axes`. -/
def enrichVariation (case : String) (d : Dict) : Dict :=
  d ++ [("_variation_axes", Val.axes (selectVariationAxes d case))]

/-- `generate_variations(case, use_case_description, policies, min_test_cases)`.
The pairwise covering rows are produced by the external `allpairspy`
library and enter as the argument `pairwise` (the library's output for
the case's axis table); the `use_case_description` and `policies`
arguments are unused in the source and omitted. -/
def generateVariations (case : String) (minTc : Nat)
    (pairwise : List Dict) (draws : List Dict) : Option (List Dict) :=
  let padded :=
    if pairwise.length < minTc then padCombos minTc pairwise draws
    else some pairwise
  padded.map (fun combos => combos.map (enrichVariation case))

/-- The pairwise-coverage property (the contract of the external
all-pairs covering-array algorithm, and property P1 of the spec): every
value pair of every distinct axis pair occurs in some dict. -/
def coversPairs (axes : List (String × List Val)) (ds : List Dict) : Prop :=
  ∀ a₁ ∈ axes, ∀ a₂ ∈ axes, a₁.1 ≠ a₂.1 →
    ∀ v₁ ∈ a₁.2, ∀ v₂ ∈ a₂.2,
      ∃ d ∈ ds, dlookup d a₁.1 = some v₁ ∧ dlookup d a₂.1 = some v₂

/-- A concrete pairwise covering array for the support-bot (equally,
doctor-booking) axis table: 12 rows, duplicate-free, covering every
pairwise value combination, and not containing the all-default row. -/
def sbCoveringRows : List Dict :=
  [[("tone", .s "neutral"), ("has_order_id", .b true), ("requires_account_access", .b true), ("language", .s "ru"), ("adversarial", .s "none")],
   [("tone", .s "neutral"), ("has_order_id", .b false), ("requires_account_access", .b false), ("language", .s "en"), ("adversarial", .s "profanity")],
   [("tone", .s "negative"), ("has_order_id", .b true), ("requires_account_access", .b true), ("language", .s "en"), ("adversarial", .s "injection")],
   [("tone", .s "negative"), ("has_order_id", .b false), ("requires_account_access", .b false), ("language", .s "ru"), ("adversarial", .s "garbage")],
   [("tone", .s "aggressive"), ("has_order_id", .b true), ("requires_account_access", .b true), ("language", .s "ru"), ("adversarial", .s "profanity")],
   [("tone", .s "aggressive"), ("has_order_id", .b false), ("requires_account_access", .b false), ("language", .s "en"), ("adversarial", .s "none")],
   [("tone", .s "neutral"), ("has_order_id", .b true), ("requires_account_access", .b true), ("language", .s "en"), ("adversarial", .s "garbage")],
   [("tone", .s "neutral"), ("has_order_id", .b true), ("requires_account_access", .b false), ("language", .s "ru"), ("adversarial", .s "injection")],
   [("tone", .s "aggressive"), ("has_order_id", .b false), ("requires_account_access", .b true), ("language", .s "ru"), ("adversarial", .s "injection")],
   [("tone", .s "negative"), ("has_order_id", .b true), ("requires_account_access", .b true), ("language", .s "ru"), ("adversarial", .s "none")],
   [("tone", .s "negative"), ("has_order_id", .b true), ("requires_account_access", .b true), ("language", .s "ru"), ("adversarial", .s "profanity")],
   [("tone", .s "aggressive"), ("has_order_id", .b true), ("requires_account_access", .b true), ("language", .s "ru"), ("adversarial", .s "garbage")]]

/-- The all-default combination of the support-bot / doctor-booking
axis table (`tone=neutral, has_order_id=True,
requires_account_access=False, language=ru, adversarial=none`). -/
def sbAllDefault : Dict :=
  [("tone", .s "neutral"), ("has_order_id", .b true),
   ("requires_account_access", .b false), ("language", .s "ru"),
   ("adversarial", .s "none")]

instance instDecCoversPairs (axes : List (String × List Val)) (ds : List Dict) :
    Decidable (coversPairs axes ds) := by
  unfold coversPairs
  exact inferInstance

/-! ### Variation-router lemmas -/

lemma dlookup_append_of_some {d : Dict} (e : Dict) {k : String} {v : Val}
    (h : dlookup d k = some v) : dlookup (d ++ e) k = some v := by
  induction d with
  | nil => exact absurd h (by simp [dlookup])
  | cons kv rest ih =>
    by_cases hk : kv.1 = k
    · simp only [dlookup, List.cons_append, hk, if_pos] at h ⊢
      exact h
    · simp only [dlookup, List.cons_append, hk, if_neg, not_false_iff] at h ⊢
      exact ih h

lemma dlookup_append_right {d : Dict} {k : String} (v : Val)
    (h : k ∉ d.map Prod.fst) : dlookup (d ++ [(k, v)]) k = some v := by
  induction d with
  | nil => simp [dlookup]
  | cons kv rest ih =>
    obtain ⟨k', v'⟩ := kv
    simp only [List.map_cons, List.mem_cons] at h
    push_neg at h
    rw [List.cons_append]
    unfold dlookup
    rw [if_neg (fun he => h.1 he.symm)]
    exact ih h.2

lemma allCombos_mem_length {axes : List (String × List Val)} {d : Dict}
    (h : d ∈ allCombos axes) : d.length = axes.length := by
  induction axes generalizing d with
  | nil =>
    simp [allCombos] at h
    subst h; rfl
  | cons a rest ih =>
    obtain ⟨k, vs⟩ := a
    simp only [allCombos, List.mem_flatMap, List.mem_map] at h
    obtain ⟨v, _, d', hd', rfl⟩ := h
    simp [ih hd']

lemma allCombos_mem_keys {axes : List (String × List Val)} {d : Dict}
    (h : d ∈ allCombos axes) : d.map Prod.fst = axes.map Prod.fst := by
  induction axes generalizing d with
  | nil =>
    simp [allCombos] at h
    subst h; rfl
  | cons a rest ih =>
    obtain ⟨k, vs⟩ := a
    simp only [allCombos, List.mem_flatMap, List.mem_map] at h
    obtain ⟨v, _, d', hd', rfl⟩ := h
    simp [ih hd']

lemma enrich_injOn {axes : List (String × List Val)} {case : String} {d₁ d₂ : Dict}
    (h₁ : d₁ ∈ allCombos axes) (h₂ : d₂ ∈ allCombos axes)
    (h : enrichVariation case d₁ = enrichVariation case d₂) : d₁ = d₂ := by
  have l₁ := allCombos_mem_length h₁
  have l₂ := allCombos_mem_length h₂
  unfold enrichVariation at h
  exact (List.append_inj h (by omega)).1

lemma padCombos_extends : ∀ (draws combos res : List Dict) (m : Nat),
    padCombos m combos draws = some res → combos <+: res := by
  intro draws
  induction draws with
  | nil =>
    intro combos res m h
    unfold padCombos at h
    split at h
    · exact absurd h (by simp)
    · obtain rfl := Option.some.inj h
      exact List.prefix_refl _
  | cons d rest ih =>
    intro combos res m h
    unfold padCombos at h
    split at h
    · split at h
      · exact ih _ _ _ h
      · exact (List.prefix_append combos [d]).trans (ih _ _ _ h)
    · obtain rfl := Option.some.inj h
      exact List.prefix_refl _

lemma padCombos_mem : ∀ (draws combos res : List Dict) (m : Nat),
    padCombos m combos draws = some res →
    ∀ d ∈ res, d ∈ combos ∨ d ∈ draws := by
  intro draws
  induction draws with
  | nil =>
    intro combos res m h d hd
    unfold padCombos at h
    split at h
    · exact absurd h (by simp)
    · obtain rfl := Option.some.inj h
      exact Or.inl hd
  | cons x rest ih =>
    intro combos res m h d hd
    unfold padCombos at h
    split at h
    · split at h
      · rcases ih _ _ _ h d hd with hc | hr
        · exact Or.inl hc
        · exact Or.inr (List.mem_cons_of_mem _ hr)
      · rcases ih _ _ _ h d hd with hc | hr
        · rcases List.mem_append.mp hc with hc' | hx
          · exact Or.inl hc'
          · exact Or.inr (List.mem_cons.mpr (Or.inl (List.mem_singleton.mp hx)))
        · exact Or.inr (List.mem_cons_of_mem _ hr)
    · obtain rfl := Option.some.inj h
      exact Or.inl hd

lemma padCombos_complete (allC : List Dict) (hA : allC.Nodup) :
    ∀ (draws combos : List Dict) (m : Nat),
    combos.Nodup → (∀ d ∈ combos, d ∈ allC) → (∀ d ∈ draws, d ∈ allC) →
    (∀ d ∈ allC, d ∈ combos ∨ d ∈ draws) → m ≤ allC.length →
    ∃ res, padCombos m combos draws = some res ∧ m ≤ res.length ∧
      res.Nodup ∧ (∀ d ∈ res, d ∈ allC) := by
  intro draws
  induction draws with
  | nil =>
    intro combos m hnd hsub _ hall hm
    have hAsub : ∀ d ∈ allC, d ∈ combos := by
      intro d hd
      rcases hall d hd with h | h
      · exact h
      · exact absurd h (by simp)
    have hlen : allC.length ≤ combos.length :=
      (hA.subperm hAsub).length_le
    refine ⟨combos, ?_, by omega, hnd, hsub⟩
    unfold padCombos
    rw [if_neg (by omega)]
  | cons x rest ih =>
    intro combos m hnd hsub hdr hall hm
    by_cases hlt : combos.length < m
    · by_cases hx : x ∈ combos
      · obtain ⟨res, hres, h1, h2, h3⟩ :=
          ih combos m hnd hsub (fun d hd => hdr d (List.mem_cons_of_mem _ hd))
            (fun d hd => by
              rcases hall d hd with h | h
              · exact Or.inl h
              · rcases List.mem_cons.mp h with rfl | h'
                · exact Or.inl hx
                · exact Or.inr h') hm
        refine ⟨res, ?_, h1, h2, h3⟩
        unfold padCombos
        rw [if_pos hlt, if_pos hx]
        exact hres
      · have hxA : x ∈ allC := hdr x (List.mem_cons_self _ _)
        obtain ⟨res, hres, h1, h2, h3⟩ :=
          ih (combos ++ [x]) m
            (by
              rw [List.nodup_append]
              exact ⟨hnd, List.nodup_singleton x,
                fun a ha hb => by
                  rw [List.mem_singleton] at hb
                  subst hb
                  exact hx ha⟩)
            (by
              intro d hd
              rcases List.mem_append.mp hd with h | h
              · exact hsub d h
              · rw [List.mem_singleton] at h
                subst h
                exact hxA)
            (fun d hd => hdr d (List.mem_cons_of_mem _ hd))
            (by
              intro d hd
              rcases hall d hd with h | h
              · exact Or.inl (List.mem_append.mpr (Or.inl h))
              · rcases List.mem_cons.mp h with rfl | h'
                · exact Or.inl (List.mem_append.mpr (Or.inr (List.mem_singleton.mpr rfl)))
                · exact Or.inr h') hm
        refine ⟨res, ?_, h1, h2, h3⟩
        unfold padCombos
        rw [if_pos hlt, if_neg hx]
        exact hres
    · refine ⟨combos, ?_, by omega, hnd, hsub⟩
      unfold padCombos
      rw [if_neg hlt]

lemma generateVariations_some {case : String} {minTc : Nat}
    {pairwise draws out : List Dict}
    (h : generateVariations case minTc pairwise draws = some out) :
    ∃ combos, out = combos.map (enrichVariation case) ∧
      pairwise <+: combos ∧
      (∀ d ∈ combos, d ∈ pairwise ∨ d ∈ draws) := by
  unfold generateVariations at h
  by_cases hlen : pairwise.length < minTc
  · rw [if_pos hlen] at h
    cases hpad : padCombos minTc pairwise draws with
    | none => rw [hpad] at h; exact absurd h (by simp)
    | some res =>
      rw [hpad] at h
      obtain rfl := Option.some.inj h
      exact ⟨res, rfl, padCombos_extends _ _ _ _ hpad, padCombos_mem _ _ _ _ hpad⟩
  · rw [if_neg hlen] at h
    obtain rfl := Option.some.inj h
    exact ⟨pairwise, rfl, List.prefix_refl _, fun d hd => Or.inl hd⟩

lemma supportBot_tag_len : ∀ d ∈ allCombos supportBotAxes,
    (selectVariationAxes d "support_bot").length = 2 ∨
    (selectVariationAxes d "support_bot").length = 3 := by decide

lemma operatorQuality_tag_len : ∀ d ∈ allCombos operatorQualityAxes,
    (selectVariationAxes d "operator_quality").length = 2 ∨
    (selectVariationAxes d "operator_quality").length = 3 := by decide

lemma allCombos_nodup : ∀ (axes : List (String × List Val)),
    (∀ a ∈ axes, a.2.Nodup) → (allCombos axes).Nodup := by
  intro axes
  induction axes with
  | nil => intro _; simp [allCombos]
  | cons a rest ih =>
    intro h
    obtain ⟨k, vs⟩ := a
    have hvs : vs.Nodup := by simpa using h (k, vs) (List.mem_cons_self _ _)
    have hrest : (allCombos rest).Nodup :=
      ih (fun b hb => h b (List.mem_cons_of_mem _ hb))
    unfold allCombos
    rw [List.nodup_flatMap]
    constructor
    · intro v _
      exact hrest.map (fun d₁ d₂ hh => by injection hh)
    · refine hvs.imp ?_
      intro v₁ v₂ hne x h₁ h₂
      obtain ⟨d₁, _, rfl⟩ := List.mem_map.mp h₁
      obtain ⟨d₂, _, heq⟩ := List.mem_map.mp h₂
      injection heq with hp _
      exact hne (congrArg Prod.snd hp).symm

lemma axesFor_cases (case : String) :
    axesFor case = supportBotAxes ∨ axesFor case = operatorQualityAxes ∨
    axesFor case = doctorBookingAxes := by
  unfold axesFor
  split
  · exact Or.inl rfl
  split
  · exact Or.inr (Or.inl rfl)
  split
  · exact Or.inr (Or.inr rfl)
  · exact Or.inl rfl

/-- C3 counterexample: `generate_variations` for the `doctor_booking`
case can return a variation whose `_variation_axes` tag is empty
(length 0, not 2 or 3). The pairwise rows are a legal covering-array
output (duplicate-free and covering every value pair); the requested
minimum exceeds the row count, so the random-padding loop runs and the
drawn all-default combination is appended and tagged with `[]`, because
`_select_variation_axes` pads non-`support_bot` cases with the axes
`punctuation_errors`/`user_aggression`, which do not occur in the
doctor-booking parameter dictionaries. -/
theorem C3_counterexample_doctor_booking :
    coversPairs doctorBookingAxes sbCoveringRows ∧
    sbCoveringRows.Nodup ∧
    ∃ out, generateVariations "doctor_booking" 13 sbCoveringRows [sbAllDefault] = some out ∧
      (∃ d ∈ out, dlookup d "_variation_axes" = some (Val.axes [])) ∧
      ¬ (∀ d ∈ out, ∃ tag, dlookup d "_variation_axes" = some (Val.axes tag) ∧
          (tag.length = 2 ∨ tag.length = 3)) := by
  refine ⟨by decide, by decide, ⟨_, rfl, ?_, ?_⟩⟩
  · decide
  · intro hall
    obtain ⟨tag, hlk, hlen⟩ :=
      hall (enrichVariation "doctor_booking" sbAllDefault) (by decide)
    have h0 : dlookup (enrichVariation "doctor_booking" sbAllDefault) "_variation_axes" =
        some (Val.axes []) := by decide
    rw [h0] at hlk
    obtain rfl : ([] : List String) = tag := by simpa using hlk
    simp at hlen

/-- C3 (amended): for the `support_bot` and `operator_quality` cases,
every variation returned by `generate_variations` carries a
`_variation_axes` tag of length exactly 2 or 3; for `doctor_booking`
and unknown case identifiers the tag can have length 0 or 1 (see the
counterexample). -/
theorem C3_dominant_axis_cardinality :
    ∀ (case : String) (minTc : Nat) (pairwise draws out : List Dict),
    case = "support_bot" ∨ case = "operator_quality" →
    (∀ d ∈ pairwise, d ∈ allCombos (axesFor case)) →
    (∀ d ∈ draws, d ∈ allCombos (axesFor case)) →
    generateVariations case minTc pairwise draws = some out →
    ∀ d ∈ out, ∃ tag, dlookup d "_variation_axes" = some (Val.axes tag) ∧
      (tag.length = 2 ∨ tag.length = 3) := by
  intro case minTc pairwise draws out hcase hpw hdr hgen d hd
  obtain ⟨combos, rfl, _, hmem⟩ := generateVariations_some hgen
  obtain ⟨d₀, hd₀, rfl⟩ := List.mem_map.mp hd
  have hdA : d₀ ∈ allCombos (axesFor case) := by
    rcases hmem d₀ hd₀ with h | h
    · exact hpw d₀ h
    · exact hdr d₀ h
  refine ⟨selectVariationAxes d₀ case, ?_, ?_⟩
  · unfold enrichVariation
    refine dlookup_append_right _ ?_
    rw [allCombos_mem_keys hdA]
    rcases hcase with rfl | rfl <;> decide
  · rcases hcase with rfl | rfl
    · exact supportBot_tag_len d₀ (by simpa using hdA)
    · exact operatorQuality_tag_len d₀ (by simpa using hdA)

/-- C3 witness: a concrete support-bot run in which the theorem applies. -/
theorem C3_dominant_axis_cardinality_witness :
    (∀ d ∈ sbCoveringRows, d ∈ allCombos (axesFor "support_bot")) ∧
    ∃ out, generateVariations "support_bot" 3 sbCoveringRows [] = some out ∧
      ∀ d ∈ out, ∃ tag, dlookup d "_variation_axes" = some (Val.axes tag) ∧
        (tag.length = 2 ∨ tag.length = 3) :=
  ⟨by decide, _, rfl,
    C3_dominant_axis_cardinality "support_bot" 3 sbCoveringRows [] _
      (Or.inl rfl) (by decide) (by decide) rfl⟩

/-- C4: pairwise coverage is preserved by `generate_variations` — if
the covering rows supplied by the all-pairs library cover every value
pair of every distinct axis pair of the case's table (the library's
contract), then so does the returned variation list: padding only
appends rows and the `_variation_axes` tagging leaves the original
axis entries in place. -/
theorem C4_pairwise_coverage :
    ∀ (case : String) (minTc : Nat) (pairwise draws out : List Dict),
    coversPairs (axesFor case) pairwise →
    generateVariations case minTc pairwise draws = some out →
    coversPairs (axesFor case) out := by
  intro case minTc pairwise draws out hcov hgen
  obtain ⟨combos, rfl, hpre, _⟩ := generateVariations_some hgen
  intro a₁ h₁ a₂ h₂ hne v₁ hv₁ v₂ hv₂
  obtain ⟨d, hd, hl₁, hl₂⟩ := hcov a₁ h₁ a₂ h₂ hne v₁ hv₁ v₂ hv₂
  refine ⟨enrichVariation case d, List.mem_map_of_mem _ (hpre.subset hd), ?_, ?_⟩
  · exact dlookup_append_of_some _ hl₁
  · exact dlookup_append_of_some _ hl₂

/-- C4 witness: the concrete 12-row covering array yields a variation
list that still covers all pairs; in particular some variation has
`tone=aggressive` together with `adversarial=injection`. -/
theorem C4_pairwise_coverage_witness :
    coversPairs (axesFor "support_bot") sbCoveringRows ∧
    ∃ out, generateVariations "support_bot" 3 sbCoveringRows [] = some out ∧
      coversPairs (axesFor "support_bot") out ∧
      ∃ d ∈ out, dlookup d "tone" = some (.s "aggressive") ∧
        dlookup d "adversarial" = some (.s "injection") :=
  ⟨by decide, _, rfl,
    C4_pairwise_coverage "support_bot" 3 sbCoveringRows [] _ (by decide) rfl,
    by decide⟩

/-- C5: minimum padding — for every case identifier, if the covering
rows are duplicate-free in-domain combinations (the all-pairs library's
contract) and the random draw stream eventually offers every
combination of the case's axis table (true with probability 1 for
uniform draws; an adversarial stream that never does models the
unbounded `while` loop spinning forever, the latent bug the spec
notes), then `generate_variations` with `min_test_cases=10` terminates
and returns at least 10 pairwise-distinct parameter dictionaries. -/
theorem C5_minimum_padding :
    ∀ (case : String) (pairwise draws : List Dict),
    pairwise.Nodup →
    (∀ d ∈ pairwise, d ∈ allCombos (axesFor case)) →
    (∀ d ∈ draws, d ∈ allCombos (axesFor case)) →
    (∀ d ∈ allCombos (axesFor case), d ∈ pairwise ∨ d ∈ draws) →
    ∃ out, generateVariations case 10 pairwise draws = some out ∧
      10 ≤ out.length ∧ out.Nodup := by
  intro case pairwise draws hnd hpw hdr hall
  have htable : (allCombos (axesFor case)).Nodup ∧
      10 ≤ (allCombos (axesFor case)).length := by
    rcases axesFor_cases case with h | h | h <;> rw [h] <;>
      exact ⟨allCombos_nodup _ (by decide), by decide⟩
  by_cases hlen : pairwise.length < 10
  · obtain ⟨res, hres, h1, h2, h3⟩ :=
      padCombos_complete (allCombos (axesFor case)) htable.1 draws pairwise 10
        hnd hpw hdr hall htable.2
    refine ⟨res.map (enrichVariation case), ?_, by simpa using h1, ?_⟩
    · unfold generateVariations
      rw [if_pos hlen, hres]
      rfl
    · exact h2.map_on (fun d₁ hd₁ d₂ hd₂ h =>
        enrich_injOn (h3 d₁ hd₁) (h3 d₂ hd₂) h)
  · refine ⟨pairwise.map (enrichVariation case), ?_, by simpa using (by omega : 10 ≤ pairwise.length), ?_⟩
    · unfold generateVariations
      rw [if_neg hlen]
      rfl
    · exact hnd.map_on (fun d₁ hd₁ d₂ hd₂ h =>
        enrich_injOn (hpw d₁ hd₁) (hpw d₂ hd₂) h)

/-- C5 witness: a concrete run — empty covering rows, draws enumerating
the whole support-bot combination space — returns at least 10 distinct
variations. -/
theorem C5_minimum_padding_witness :
    ∃ out, generateVariations "support_bot" 10 [] (allCombos (axesFor "support_bot")) = some out ∧
      10 ≤ out.length ∧ out.Nodup :=
  C5_minimum_padding "support_bot" [] (allCombos (axesFor "support_bot"))
    (by simp) (by simp) (fun d h => h) (fun d h => Or.inr h)

/-- C8: the model-layer constructors reject hard schema-invariant
violations: a `TestCase` whose `parameter_variation_axes` has length 1
or 4 raises; a `DatasetExample` with only 2 `evaluation_criteria`
raises, with an empty `policy_ids` list raises, and with a policy id
not starting with `pol_` raises; an `InputData` with
`target_message_index=1` but only 1 message raises, and with
`target_message_index` pointing at a message whose role is not
`operator` raises. -/
theorem C8_schema_invariants :
    (∀ id uc name descr axes md case params pols,
        axes.length = 1 ∨ axes.length = 4 →
        raises (TestCase.make id uc name descr axes md case params pols) = true)
  ∧ (∀ id case fmt uc tc inp out crit pols md,
        crit.length = 2 →
        raises (DatasetExample.make id case fmt uc tc inp out crit pols md) = true)
  ∧ (∀ id case fmt uc tc inp out crit md,
        raises (DatasetExample.make id case fmt uc tc inp out crit [] md) = true)
  ∧ (∀ id case fmt uc tc inp out crit pols md,
        (∃ pid ∈ pols, pyStartsWith pid "pol_" = false) →
        raises (DatasetExample.make id case fmt uc tc inp out crit pols md) = true)
  ∧ (∀ msgs, msgs.length = 1 → raises (InputData.make msgs (some 1)) = true)
  ∧ (∀ msgs (idx : Int) m, msgs[idx.toNat]? = some m → 0 ≤ idx →
        idx < (msgs.length : Int) → m.role ≠ Role.operator →
        raises (InputData.make msgs (some idx)) = true) := by
  refine ⟨?_, ?_, ?_, ?_, ?_, ?_⟩
  · intro id uc name descr axes md case params pols h
    unfold TestCase.make
    split
    · rfl
    split
    · rfl
    split
    · rfl
    · rename_i h3
      exfalso
      rcases h with h | h <;> omega
  · intro id case fmt uc tc inp out crit pols md h
    unfold DatasetExample.make
    split
    · rfl
    split
    · rfl
    split
    · rfl
    split
    · rfl
    · rename_i h4
      exfalso; omega
  · intro id case fmt uc tc inp out crit md
    unfold DatasetExample.make
    split
    · rfl
    split
    · rfl
    split
    · rfl
    split
    · rfl
    split
    · rfl
    · rename_i h5
      exfalso
      simp at h5
  · intro id case fmt uc tc inp out crit pols md h
    obtain ⟨pid, hmem, hpid⟩ := h
    unfold DatasetExample.make
    split
    · rfl
    split
    · rfl
    split
    · rfl
    split
    · rfl
    split
    · rfl
    · split
      · rfl
      · rename_i hfind
        exfalso
        have := List.find?_eq_none.mp hfind pid hmem
        simp [hpid] at this
  · intro msgs h
    unfold InputData.make
    split
    · rfl
    · split
      · rename_i heq
        exact absurd heq (by simp)
      · rename_i idx' heq
        obtain rfl : (1 : Int) = idx' := by injection heq
        split
        · rfl
        · rename_i hrange
          rw [not_not] at hrange
          exfalso
          omega
  · intro msgs idx m hget h0 hlt hrole
    unfold InputData.make
    split
    · rfl
    · split
      · rename_i heq
        exact absurd heq (by simp)
      · rename_i idx' heq
        obtain rfl : idx = idx' := by injection heq
        split
        · rfl
        · rw [hget]
          split
          · rename_i m' heq'
            obtain rfl : m = m' := by injection heq'
            split
            · rfl
            · rename_i hop
              rw [not_not] at hop
              exact absurd hop (by simpa using hrole)
          · rfl

/-- C8 witness: concrete invalid constructions all raise. -/
theorem C8_schema_invariants_witness :
    raises (TestCase.make "tc_x" "uc_x" "n" "d" ["a"] [] "" [] []) = true
  ∧ raises (TestCase.make "tc_x" "uc_x" "n" "d" ["a", "b", "c", "d"] [] "" [] []) = true
  ∧ raises (DatasetExample.make "ex_x" "support_bot" "single_turn_qa" "uc_x" "tc_x"
      ⟨[⟨Role.user, "q"⟩], none⟩ "a" ["c1", "c2"] ["pol_x"] []) = true
  ∧ raises (DatasetExample.make "ex_x" "support_bot" "single_turn_qa" "uc_x" "tc_x"
      ⟨[⟨Role.user, "q"⟩], none⟩ "a" ["c1", "c2", "c3"] [] []) = true
  ∧ raises (DatasetExample.make "ex_x" "support_bot" "single_turn_qa" "uc_x" "tc_x"
      ⟨[⟨Role.user, "q"⟩], none⟩ "a" ["c1", "c2", "c3"] ["bad_x"] []) = true
  ∧ raises (InputData.make [⟨Role.user, "q"⟩] (some 1)) = true
  ∧ raises (InputData.make [⟨Role.user, "q"⟩, ⟨Role.user, "r"⟩] (some 1)) = true :=
  ⟨C8_schema_invariants.1 "tc_x" "uc_x" "n" "d" ["a"] [] "" [] [] (Or.inl (by decide)),
   C8_schema_invariants.1 "tc_x" "uc_x" "n" "d" ["a", "b", "c", "d"] [] "" [] []
     (Or.inr (by decide)),
   C8_schema_invariants.2.1 "ex_x" "support_bot" "single_turn_qa" "uc_x" "tc_x"
     ⟨[⟨Role.user, "q"⟩], none⟩ "a" ["c1", "c2"] ["pol_x"] [] (by decide),
   C8_schema_invariants.2.2.1 "ex_x" "support_bot" "single_turn_qa" "uc_x" "tc_x"
     ⟨[⟨Role.user, "q"⟩], none⟩ "a" ["c1", "c2", "c3"] [],
   C8_schema_invariants.2.2.2.1 "ex_x" "support_bot" "single_turn_qa" "uc_x" "tc_x"
     ⟨[⟨Role.user, "q"⟩], none⟩ "a" ["c1", "c2", "c3"] ["bad_x"] []
     ⟨"bad_x", by decide, by decide⟩,
   C8_schema_invariants.2.2.2.2.1 [⟨Role.user, "q"⟩] (by decide),
   C8_schema_invariants.2.2.2.2.2 [⟨Role.user, "q"⟩, ⟨Role.user, "r"⟩] 1 ⟨Role.user, "r"⟩
     (by decide) (by decide) (by decide) (by decide)⟩

/-! ## Integrity checker (`validation/integrity_checker.py`) -/

/-- A use case as far as referential integrity is concerned (only the
`id` field is consulted). -/
structure UseCaseRec where
  id : String
deriving DecidableEq, Repr

/-- A policy as far as referential integrity is concerned. -/
structure PolicyRec where
  id : String
deriving DecidableEq, Repr

/-- `check_referential_integrity(use_cases, policies, test_cases, examples)`
from `validation/integrity_checker.py` (the existence-based variant B):
the four checks run in order and append one violation string per
dangling reference. Membership in the Python lookup sets is membership
in the corresponding id list. -/
def checkReferentialIntegrity (use_cases : List UseCaseRec)
    (policies : List PolicyRec) (test_cases : List TestCase)
    (examples : List DatasetExample) : List String :=
  (test_cases.flatMap fun tc =>
    if tc.use_case_id ∉ use_cases.map UseCaseRec.id then
      [s!"Test case '{tc.id}' references non-existent use_case_id: '{tc.use_case_id}'"]
    else []) ++
  (examples.flatMap fun ex =>
    if ex.use_case_id ∉ use_cases.map UseCaseRec.id then
      [s!"Example '{ex.id}' references non-existent use_case_id: '{ex.use_case_id}'"]
    else []) ++
  (examples.flatMap fun ex =>
    if ex.test_case_id ∉ test_cases.map TestCase.id then
      [s!"Example '{ex.id}' references non-existent test_case_id: '{ex.test_case_id}'"]
    else []) ++
  (examples.flatMap fun ex =>
    ex.policy_ids.flatMap fun pid =>
      if pid ∉ policies.map PolicyRec.id then
        [s!"Example '{ex.id}' references non-existent policy_id: '{pid}'"]
      else [])

lemma flatMap_nil_of_forall {α β : Type} {l : List α} {f : α → List β}
    (h : ∀ x ∈ l, f x = []) : l.flatMap f = [] := by
  induction l with
  | nil => rfl
  | cons x rest ih =>
    rw [List.flatMap_cons, h x (List.mem_cons_self _ _),
      ih (fun y hy => h y (List.mem_cons_of_mem _ hy))]
    rfl

/-- C6: integrity round-trip. First part: when every
`test_case.use_case_id`, `example.use_case_id`, `example.test_case_id`
and example policy id resolves, `check_referential_integrity` returns
the empty list. Second part: if exactly one example's `test_case_id`
is replaced by an id absent from the test-case collection (all else
unchanged), it returns exactly one violation string naming that
example's id and the dangling id. -/
theorem C6_integrity_round_trip :
    (∀ (ucs : List UseCaseRec) (pols : List PolicyRec)
        (tcs : List TestCase) (exs : List DatasetExample),
      (∀ tc ∈ tcs, tc.use_case_id ∈ ucs.map UseCaseRec.id) →
      (∀ ex ∈ exs, ex.use_case_id ∈ ucs.map UseCaseRec.id) →
      (∀ ex ∈ exs, ex.test_case_id ∈ tcs.map TestCase.id) →
      (∀ ex ∈ exs, ∀ pid ∈ ex.policy_ids, pid ∈ pols.map PolicyRec.id) →
      checkReferentialIntegrity ucs pols tcs exs = [])
  ∧ (∀ (ucs : List UseCaseRec) (pols : List PolicyRec) (tcs : List TestCase)
        (pre post : List DatasetExample) (orig : DatasetExample) (bad : String),
      (∀ tc ∈ tcs, tc.use_case_id ∈ ucs.map UseCaseRec.id) →
      (∀ ex ∈ pre ++ [orig] ++ post, ex.use_case_id ∈ ucs.map UseCaseRec.id) →
      (∀ ex ∈ pre ++ [orig] ++ post, ex.test_case_id ∈ tcs.map TestCase.id) →
      (∀ ex ∈ pre ++ [orig] ++ post, ∀ pid ∈ ex.policy_ids, pid ∈ pols.map PolicyRec.id) →
      bad ∉ tcs.map TestCase.id →
      checkReferentialIntegrity ucs pols tcs
          (pre ++ [{ orig with test_case_id := bad }] ++ post) =
        [s!"Example '{orig.id}' references non-existent test_case_id: '{bad}'"]) := by
  constructor
  · intro ucs pols tcs exs h1 h2 h3 h4
    unfold checkReferentialIntegrity
    rw [flatMap_nil_of_forall (fun tc htc => if_neg (by simp [h1 tc htc])),
        flatMap_nil_of_forall (fun ex hex => if_neg (by simp [h2 ex hex])),
        flatMap_nil_of_forall (fun ex hex => if_neg (by simp [h3 ex hex])),
        flatMap_nil_of_forall (fun ex hex =>
          flatMap_nil_of_forall (fun pid hpid => if_neg (by simp [h4 ex hex pid hpid])))]
    rfl
  · intro ucs pols tcs pre post orig bad h1 h2 h3 h4 hbad
    unfold checkReferentialIntegrity
    rw [flatMap_nil_of_forall (fun tc htc => if_neg (by simp [h1 tc htc])),
        flatMap_nil_of_forall (fun ex hex => if_neg (by
          have : ex.use_case_id ∈ ucs.map UseCaseRec.id := by
            rcases List.mem_append.mp hex with hl | hr
            · rcases List.mem_append.mp hl with hp | ho
              · exact h2 ex (by simp [hp])
              · obtain rfl : ex = { orig with test_case_id := bad } := by simpa using ho
                exact h2 orig (by simp)
            · exact h2 ex (by simp [hr])
          simp [this])),
        flatMap_nil_of_forall (fun ex hex =>
          flatMap_nil_of_forall (fun pid hpid => if_neg (by
            have : pid ∈ pols.map PolicyRec.id := by
              rcases List.mem_append.mp hex with hl | hr
              · rcases List.mem_append.mp hl with hp | ho
                · exact h4 ex (by simp [hp]) pid hpid
                · obtain rfl : ex = { orig with test_case_id := bad } := by simpa using ho
                  exact h4 orig (by simp) pid hpid
              · exact h4 ex (by simp [hr]) pid hpid
            simp [this])))]
    rw [List.flatMap_append, List.flatMap_append, List.flatMap_singleton,
        flatMap_nil_of_forall (fun ex hex => if_neg (by simp [h3 ex (by simp [hex])])),
        flatMap_nil_of_forall (fun ex hex => if_neg (by simp [h3 ex (by simp [hex])]))]
    simp [hbad]

/-- C6 witness: a concrete fully-resolving artifact set yields no
violations, and mutating its single example's `test_case_id` to a
dangling id yields exactly the one expected violation string. -/
theorem C6_integrity_round_trip_witness :
    checkReferentialIntegrity [⟨"uc_001"⟩] [⟨"pol_001"⟩]
      [⟨"tc_001001", "uc_001", "TC", "D", ["a", "b"], [], "support_bot", [], ["pol_001"]⟩]
      [⟨"ex_001001", "support_bot", "single_turn_qa", "uc_001", "tc_001001",
        ⟨[⟨Role.user, "q"⟩], none⟩, "a", ["c1", "c2", "c3"], ["pol_001"], []⟩] = []
  ∧ checkReferentialIntegrity [⟨"uc_001"⟩] [⟨"pol_001"⟩]
      [⟨"tc_001001", "uc_001", "TC", "D", ["a", "b"], [], "support_bot", [], ["pol_001"]⟩]
      ([] ++ [{ (⟨"ex_001001", "support_bot", "single_turn_qa", "uc_001", "tc_001001",
        ⟨[⟨Role.user, "q"⟩], none⟩, "a", ["c1", "c2", "c3"], ["pol_001"], []⟩ : DatasetExample)
          with test_case_id := "tc_zzz" }] ++ []) =
      ["Example 'ex_001001' references non-existent test_case_id: 'tc_zzz'"] :=
  ⟨C6_integrity_round_trip.1 _ _ _ _ (by decide) (by decide) (by decide) (by decide),
   C6_integrity_round_trip.2 [⟨"uc_001"⟩] [⟨"pol_001"⟩]
     [⟨"tc_001001", "uc_001", "TC", "D", ["a", "b"], [], "support_bot", [], ["pol_001"]⟩]
     [] []
     ⟨"ex_001001", "support_bot", "single_turn_qa", "uc_001", "tc_001001",
       ⟨[⟨Role.user, "q"⟩], none⟩, "a", ["c1", "c2", "c3"], ["pol_001"], []⟩
     "tc_zzz" (by decide) (by decide) (by decide) (by decide) (by decide)⟩

/-! ## Coverage enforcer (`generation/coverage.py`) -/

/-- `enforce_coverage(use_case_id, test_cases, examples, min_test_cases,
min_criteria, min_policy_ids)`: hard failure (raise) when fewer than
`min_test_cases` test cases are given; otherwise the five soft checks
collect warnings and the function returns `(test_cases, examples,
warnings)`. (The source renders the orphan and invalid-reference
warnings from Python `sorted` sets; here the offending ids are listed
in first-occurrence order, which only affects the warning text.) -/
def enforceCoverage (use_case_id : String) (test_cases : List TestCase)
    (examples : List DatasetExample) (min_test_cases : Nat)
    (min_criteria : Nat) (min_policy_ids : Nat) :
    Except String (List TestCase × List DatasetExample × List String) :=
  if test_cases.length < min_test_cases then
    .error s!"Use case {use_case_id} has only {test_cases.length} test cases, minimum required: {min_test_cases}"
  else
    let warnings :=
      (test_cases.flatMap fun tc =>
        if ¬ (2 ≤ tc.parameter_variation_axes.length ∧
              tc.parameter_variation_axes.length ≤ 3) then
          [s!"Test case {tc.id} has {tc.parameter_variation_axes.length} parameter_variation_axes, expected 2-3 (Pydantic should have caught this)"]
        else []) ++
      (examples.flatMap fun ex =>
        if ex.evaluation_criteria.length < min_criteria then
          [s!"Example {ex.id} has only {ex.evaluation_criteria.length} evaluation_criteria, minimum: {min_criteria} (Pydantic should have caught this)"]
        else []) ++
      (examples.flatMap fun ex =>
        if ex.policy_ids.length < min_policy_ids then
          [s!"Example {ex.id} has only {ex.policy_ids.length} policy_ids, minimum: {min_policy_ids} (Pydantic should have caught this)"]
        else []) ++
      (let orphans := (test_cases.map TestCase.id).filter
          (fun tcid => ¬ tcid ∈ examples.map DatasetExample.test_case_id)
       if orphans ≠ [] then
         [s!"Test cases without examples: {orphans}"]
       else []) ++
      (let invalid := (examples.map DatasetExample.test_case_id).filter
          (fun tcid => ¬ tcid ∈ test_cases.map TestCase.id)
       if invalid ≠ [] then
         [s!"Examples reference invalid test case IDs: {invalid}"]
       else [])
    .ok (test_cases, examples, warnings)

/-- C9: coverage floor — `enforce_coverage` with `min_test_cases=3`
raises whenever only 2 test cases are given, and returns without
raising (possibly with warnings) when given 3 test cases each
referenced by at least one example. -/
theorem C9_coverage_floor :
    (∀ (uc : String) (tcs : List TestCase) (exs : List DatasetExample),
      tcs.length = 2 → raises (enforceCoverage uc tcs exs 3 3 1) = true)
  ∧ (∀ (uc : String) (tcs : List TestCase) (exs : List DatasetExample),
      tcs.length = 3 → (∀ tc ∈ tcs, ∃ ex ∈ exs, ex.test_case_id = tc.id) →
      raises (enforceCoverage uc tcs exs 3 3 1) = false) := by
  constructor
  · intro uc tcs exs hlen
    unfold enforceCoverage
    rw [if_pos (by omega)]
    rfl
  · intro uc tcs exs hlen _
    unfold enforceCoverage
    rw [if_neg (by omega)]
    rfl

/-- C9 witness: two concrete test cases raise; three concrete test
cases, each referenced by an example, do not. -/
theorem C9_coverage_floor_witness :
    raises (enforceCoverage "uc_001"
      [⟨"tc_a", "uc_001", "A", "D", ["a", "b"], [], "", [], []⟩,
       ⟨"tc_b", "uc_001", "B", "D", ["a", "b"], [], "", [], []⟩] [] 3 3 1) = true
  ∧ raises (enforceCoverage "uc_001"
      [⟨"tc_a", "uc_001", "A", "D", ["a", "b"], [], "", [], []⟩,
       ⟨"tc_b", "uc_001", "B", "D", ["a", "b"], [], "", [], []⟩,
       ⟨"tc_c", "uc_001", "C", "D", ["a", "b"], [], "", [], []⟩]
      [⟨"ex_a", "s", "f", "uc_001", "tc_a", ⟨[⟨Role.user, "q"⟩], none⟩, "o", ["c1", "c2", "c3"], ["pol_1"], []⟩,
       ⟨"ex_b", "s", "f", "uc_001", "tc_b", ⟨[⟨Role.user, "q"⟩], none⟩, "o", ["c1", "c2", "c3"], ["pol_1"], []⟩,
       ⟨"ex_c", "s", "f", "uc_001", "tc_c", ⟨[⟨Role.user, "q"⟩], none⟩, "o", ["c1", "c2", "c3"], ["pol_1"], []⟩] 3 3 1) = false :=
  ⟨C9_coverage_floor.1 "uc_001" _ _ (by decide),
   C9_coverage_floor.2 "uc_001" _ _ (by decide) (by decide)⟩

/-! ## External-engine adapter id derivation
(`adapters/deepeval_adapter.py`, `adapters/ragas_adapter.py`,
`adapters/giskard_adapter.py`) -/

/-- `f"tc_{use_case_id.replace('uc_', '')}{test_case_index:03d}"` from
`adapt_deepeval_golden_to_test_case`. -/
def deepevalTcId (use_case_id : String) (idx : Nat) : String :=
  "tc_" ++ stripUc use_case_id ++ pad3 idx

/-- The same id expression from `adapt_ragas_row_to_test_case`. -/
def ragasTcId (use_case_id : String) (idx : Nat) : String :=
  "tc_" ++ stripUc use_case_id ++ pad3 idx

/-- The same id expression from `adapt_giskard_row_to_test_case`. -/
def giskardTcId (use_case_id : String) (idx : Nat) : String :=
  "tc_" ++ stripUc use_case_id ++ pad3 idx

/-- `f"ex_{use_case_id.replace('uc_', '')}{example_index:03d}"` from
`adapt_deepeval_golden_to_example`. -/
def deepevalExId (use_case_id : String) (idx : Nat) : String :=
  "ex_" ++ stripUc use_case_id ++ pad3 idx

/-- The same id expression from `adapt_ragas_row_to_example`. -/
def ragasExId (use_case_id : String) (idx : Nat) : String :=
  "ex_" ++ stripUc use_case_id ++ pad3 idx

/-- The same id expression from `adapt_giskard_row_to_example`. -/
def giskardExId (use_case_id : String) (idx : Nat) : String :=
  "ex_" ++ stripUc use_case_id ++ pad3 idx

lemma stripUcAux_id : ∀ (l : List Char), hasUc l = false → stripUcAux l = l := by
  intro l
  induction l using hasUc.induct with
  | case1 => intro _; rfl
  | case2 c => intro _; rfl
  | case3 c c' => intro _; rfl
  | case4 c c' c'' rest hcond =>
    intro h
    unfold hasUc at h
    rw [if_pos hcond] at h
    exact absurd h (by simp)
  | case5 c c' c'' rest hcond ih =>
    intro h
    unfold hasUc at h
    rw [if_neg hcond] at h
    unfold stripUcAux
    rw [if_neg hcond, ih h]

/-- C10: every external-engine adapter derives its TestCase id as
`tc_` + the use-case id stripped of its `uc_` prefix + the zero-padded
3-digit record index (example ids analogously with `ex_`), with no
backend-specific component — so two different backends invoked for the
same use case and record index mint identical ids. -/
theorem C10_backend_id_collision :
    (∀ uc idx, deepevalTcId uc idx = ragasTcId uc idx ∧
       ragasTcId uc idx = giskardTcId uc idx ∧
       deepevalExId uc idx = ragasExId uc idx ∧
       ragasExId uc idx = giskardExId uc idx)
  ∧ (∀ rest idx, hasUc rest.data = false →
       deepevalTcId ("uc_" ++ rest) idx = "tc_" ++ rest ++ pad3 idx ∧
       deepevalExId ("uc_" ++ rest) idx = "ex_" ++ rest ++ pad3 idx) := by
  constructor
  · intro uc idx
    exact ⟨rfl, rfl, rfl, rfl⟩
  · intro rest idx h
    have hstrip : stripUc ("uc_" ++ rest) = rest := by
      unfold stripUc
      have hd : ("uc_" ++ rest).data = 'u' :: 'c' :: '_' :: rest.data := by
        rw [String.data_append]
        rfl
      rw [hd]
      have : stripUcAux ('u' :: 'c' :: '_' :: rest.data) = stripUcAux rest.data := rfl
      rw [this, stripUcAux_id _ h]
    constructor
    · unfold deepevalTcId
      rw [hstrip, String.append_assoc]
    · unfold deepevalExId
      rw [hstrip, String.append_assoc]

/-- C10 witness: a concrete use case and index. -/
theorem C10_backend_id_collision_witness :
    deepevalTcId "uc_001" 7 = ragasTcId "uc_001" 7
  ∧ deepevalTcId ("uc_" ++ "001") 7 = "tc_" ++ "001" ++ pad3 7 :=
  ⟨(C10_backend_id_collision.1 "uc_001" 7).1,
   (C10_backend_id_collision.2 "001" 7 (by decide)).1⟩

/-! ## External-engine adapters (`adapters/*.py`): defensive mapping -/

/-- A generic Python value as delivered by an external synthesis engine
record (DeepEval `Golden` attribute, pandas row cell). Missing values
/ `NaN` are modelled as `Py.none`. -/
inductive Py where
  | none
  | str (s : String)
  | int (n : Int)
  | bool (b : Bool)
  | list (xs : List Py)
  | dict (kvs : List (String × Py))
deriving Repr

mutual
/-- Structural equality on Python values. -/
def pyEq : Py → Py → Bool
  | .none, .none => true
  | .str a, .str b => a == b
  | .int a, .int b => a == b
  | .bool a, .bool b => a == b
  | .list xs, .list ys => pyEqList xs ys
  | .dict xs, .dict ys => pyEqPairs xs ys
  | _, _ => false

/-- Structural equality on lists of Python values. -/
def pyEqList : List Py → List Py → Bool
  | [], [] => true
  | x :: xs, y :: ys => pyEq x y && pyEqList xs ys
  | _, _ => false

/-- Structural equality on Python dict entry lists. -/
def pyEqPairs : List (String × Py) → List (String × Py) → Bool
  | [], [] => true
  | (k, x) :: xs, (k2, y) :: ys => k == k2 && pyEq x y && pyEqPairs xs ys
  | _, _ => false
end

instance : BEq Py := ⟨pyEq⟩

/-- An external record: a finite attribute map (`getattr` /
pandas-`row.get` both read from it). -/
abbrev PyObj := List (String × Py)

/-- `getattr(obj, name, default)` (also pandas `row.get(name, default)`;
an attribute stored as `Py.none` is indistinguishable from a missing
one, as in `pandas`). -/
def pyGetAttr (o : PyObj) (name : String) (default : Py) : Py :=
  match o.find? (fun kv => kv.1 == name) with
  | some kv => kv.2
  | Option.none => default

/-- `d.get(k, default)` on a Python dict value. -/
def pyDictGet (kvs : List (String × Py)) (k : String) (default : Py) : Py :=
  match kvs.find? (fun kv => kv.1 == k) with
  | some kv => kv.2
  | Option.none => default

/-- Python truthiness. -/
def pyTruthy : Py → Bool
  | .none => false
  | .str s => s ≠ ""
  | .int n => n ≠ 0
  | .bool b => b
  | .list xs => !xs.isEmpty
  | .dict kvs => !kvs.isEmpty

/-- Python `str(v)` (containers rendered abstractly; only the scalar
renderings are ever compared against in the source). -/
def pyStr : Py → String
  | .none => "None"
  | .str s => s
  | .int n => toString n
  | .bool true => "True"
  | .bool false => "False"
  | .list _ => "[\x2e\x2e\x2e]"
  | .dict _ => "\x7b\x2e\x2e\x2e\x7d"

/-- `pd.isna(v)` with `NaN` modelled as `Py.none`. -/
def pdIsNa : Py → Bool
  | .none => true
  | _ => false

/-- Python `s[:n]`. -/
def pyStrTake (s : String) (n : Nat) : String :=
  String.mk (s.data.take n)

/-- Python `s.rsplit(" ", 1)[0]`: everything before the last space, or
the whole string when there is none. -/
def rsplitFirst (s : String) : String :=
  let rev := s.data.reverse
  let rest := rev.dropWhile (fun c => ¬ (c = ' '))
  match rest with
  | [] => s
  | _ :: tail => String.mk tail.reverse

/-- Python `sub in s` (substring test). -/
def strContains (s sub : String) : Bool :=
  decide (List.IsInfix sub.data s.data)

/-- Python `s.lower()`. -/
def pyLower (s : String) : String :=
  String.mk (s.data.map Char.toLower)

/-- A regex `\w` character (ASCII view). -/
def isWordChar (c : Char) : Bool :=
  c.isAlphanum || c = '_'

/-- `re.findall(r'pol_\w+', s)` on the character list: collect every
maximal `pol_`-prefixed word-character run. -/
def findPolAux : List Char → List String
  | c :: c1 :: c2 :: c3 :: rest =>
    if (c = 'p' ∧ c1 = 'o' ∧ c2 = 'l' ∧ c3 = '_') ∧ rest.takeWhile isWordChar ≠ [] then
      ("pol_" ++ String.mk (rest.takeWhile isWordChar)) ::
        findPolAux (rest.dropWhile isWordChar)
    else
      findPolAux (c1 :: c2 :: c3 :: rest)
  | _ => []
termination_by l => l.length
decreasing_by
  · simp only [List.length_cons]
    have := (List.dropWhile_suffix isWordChar (l := rest)).length_le
    omega
  · simp only [List.length_cons]
    omega

/-- `re.findall(r'pol_\w+', s)`. -/
def findPolIds (s : String) : List String :=
  findPolAux s.data

/-- The try-block of `adapt_deepeval_golden_to_test_case` (everything
before the `except`). A Python `TypeError` on slicing/`len()` of an
unsuitable `input` attribute and a pydantic `ValidationError` from the
final construction both surface as `Except.error`. -/
def tryAdaptDeepevalTc (golden : PyObj) (use_case_id : String) (idx : Nat) :
    Except String TestCase := do
  let tc_id := deepevalTcId use_case_id idx
  let input_val := pyGetAttr golden "input" (Py.str "")
  let name ←
    if pyTruthy input_val then
      match input_val with
      | Py.str s =>
        pure (if s.data.length > 80 then rsplitFirst (pyStrTake s 80) ++ "..."
              else pyStrTake s 80)
      | _ => throw "TypeError: input attribute is not subscriptable"
    else
      match input_val with
      | Py.str _ => pure s!"Test case {idx}"
      | Py.list _ => pure s!"Test case {idx}"
      | Py.dict _ => pure s!"Test case {idx}"
      | _ => throw "TypeError: object has no len()"
  let context := pyGetAttr golden "context" (Py.list [])
  let description ←
    match context with
    | Py.list (x :: _) =>
      match x with
      | Py.str s => pure (pyStrTake s 200)
      | v => pure (pyStrTake (pyStr v) 200)
    | _ =>
      if pyTruthy input_val then
        match input_val with
        | Py.str s => pure (pyStrTake s 200)
        | _ => throw "TypeError: input attribute is not subscriptable"
      else
        pure s!"Test case for {use_case_id}"
  let am := pyGetAttr golden "additional_metadata" (Py.dict [])
  let evolution_type :=
    match am with
    | Py.dict kvs => pyDictGet kvs "evolution_type" (Py.str "unknown")
    | _ => Py.str "unknown"
  let parameter_variation_axes :=
    if evolution_type == Py.str "reasoning" then
      ["reasoning_depth", "logical_complexity"]
    else if evolution_type == Py.str "multicontext" || evolution_type == Py.str "multi_context" then
      ["context_count", "cross_reference_depth"]
    else if evolution_type == Py.str "concretizing" then
      ["scenario_specificity", "detail_level"]
    else if evolution_type == Py.str "constrained" then
      ["constraint_type", "edge_case_complexity"]
    else
      ["tone", "complexity", "policy_boundary"]
  let parameter_variation_axes := parameter_variation_axes.take 3
  let quality_score :=
    match am with
    | Py.dict kvs => pyDictGet kvs "quality_score" Py.none
    | _ => Py.none
  TestCase.make tc_id use_case_id name description parameter_variation_axes
    [("generator", "deepeval"), ("evolution_type", pyStr evolution_type),
     ("quality_score", pyStr quality_score)] "" [] []

/-- `adapt_deepeval_golden_to_test_case`: run the try-block; on any
exception return the minimal valid fallback TestCase. An `error`
result of this outer function models the adapter itself raising (which
can only come from the fallback construction). -/
def adaptDeepevalGoldenToTestCase (golden : PyObj) (use_case_id : String)
    (idx : Nat) : Except String TestCase :=
  match tryAdaptDeepevalTc golden use_case_id idx with
  | .ok tc => .ok tc
  | .error e =>
    TestCase.make (deepevalTcId use_case_id idx) use_case_id
      s!"Test case {idx}" "Test case adapted from DeepEval golden"
      ["tone", "complexity"]
      [("generator", "deepeval"), ("adaptation_error", e)] "" [] []

/-- The try-block of `adapt_deepeval_golden_to_example`. -/
def tryAdaptDeepevalEx (golden : PyObj) (use_case_id test_case_id : String)
    (idx : Nat) (case fmt : String) (policyIds? : Option (List String)) :
    Except String DatasetExample := do
  let ex_id := deepevalExId use_case_id idx
  let input_val := pyGetAttr golden "input" (Py.str "")
  let content ←
    match input_val with
    | Py.str s => pure s
    | _ => throw "ValidationError: Message.content must be a string"
  let input_data ← InputData.make [⟨Role.user, content⟩] Option.none
  let expected_output_val := pyGetAttr golden "expected_output" (Py.str "")
  let expected_output ←
    if ¬ pyTruthy expected_output_val then pure ""
    else
      match expected_output_val with
      | Py.str s => pure s
      | _ => throw "ValidationError: expected_output must be a string"
  let context := pyGetAttr golden "context" (Py.list [])
  let am := pyGetAttr golden "additional_metadata" (Py.dict [])
  let evolution_type :=
    match am with
    | Py.dict kvs => pyDictGet kvs "evolution_type" (Py.str "unknown")
    | _ => Py.str "unknown"
  let evaluation_criteria :=
    if evolution_type == Py.str "reasoning" then
      ["logical_correctness", "reasoning_clarity", "policy_compliance",
       "response_completeness"]
    else if evolution_type == Py.str "multicontext" || evolution_type == Py.str "multi_context" then
      ["context_integration", "cross_reference_accuracy", "policy_compliance",
       "response_completeness"]
    else
      ["relevance_to_query", "policy_compliance", "response_completeness",
       "answer_accuracy"]
  let policy_ids :=
    match policyIds? with
    | some l => l
    | Option.none =>
      let extracted :=
        match context with
        | Py.list xs => xs.flatMap (fun x =>
            match x with
            | Py.str s => findPolIds s
            | _ => [])
        | _ => []
      let deduped := extracted.eraseDups
      if deduped = [] then ["pol_unknown"] else deduped
  let context_count :=
    match context with
    | Py.list xs => xs.length
    | _ => 0
  let baseMeta := [("generator", "deepeval"),
                   ("evolution_type", pyStr evolution_type),
                   ("context_count", toString context_count)]
  let metadata := baseMeta ++
    (match am with
     | Py.dict kvs =>
       (kvs.filter (fun kv => ¬ (baseMeta.map Prod.fst).contains kv.1)).map
         (fun kv => (kv.1, pyStr kv.2))
     | _ => [])
  DatasetExample.make ex_id case fmt use_case_id test_case_id input_data
    expected_output evaluation_criteria policy_ids metadata

/-- `adapt_deepeval_golden_to_example` with its except-fallback. The
fallback's `policy_ids or ["pol_unknown"]` reads the local variable,
which equals the argument unless the try-block already replaced it with
regex-extracted (hence `pol_`-prefixed, non-empty) ids; both choices
construct a valid record, and the argument value is used here. -/
def adaptDeepevalGoldenToExample (golden : PyObj) (use_case_id test_case_id : String)
    (idx : Nat) (case fmt : String) (policyIds? : Option (List String)) :
    Except String DatasetExample :=
  match tryAdaptDeepevalEx golden use_case_id test_case_id idx case fmt policyIds? with
  | .ok ex => .ok ex
  | .error e => do
    let inp ← InputData.make [⟨Role.user, ""⟩] Option.none
    DatasetExample.make (deepevalExId use_case_id idx) case fmt use_case_id
      test_case_id inp "" ["relevance", "policy_compliance", "completeness"]
      (match policyIds? with
       | some l => if l ≠ [] then l else ["pol_unknown"]
       | Option.none => ["pol_unknown"])
      [("generator", "deepeval"), ("adaptation_error", e)]

/-- The try-block of `adapt_ragas_row_to_test_case`: total up to the
final construction, since the source passes every cell through
`str(...)` before slicing. -/
def tryAdaptRagasTc (row : PyObj) (use_case_id : String) (idx : Nat) :
    Except String TestCase := do
  let tc_id := ragasTcId use_case_id idx
  let question := pyGetAttr row "question" (pyGetAttr row "user_input" (Py.str ""))
  let name :=
    if pyTruthy question then pyStrTake (pyStr question) 80
    else s!"Test case {idx}"
  let name :=
    if (pyStr question).data.length > 80 then rsplitFirst name ++ "..." else name
  let ground_truth := pyGetAttr row "ground_truth" (pyGetAttr row "reference" (Py.str ""))
  let description :=
    if !pdIsNa ground_truth && pyTruthy ground_truth then
      pyStrTake (pyStr ground_truth) 200
    else if pyTruthy question then pyStrTake (pyStr question) 200
    else s!"Test case for {use_case_id}"
  let md := pyGetAttr row "metadata" Py.none
  let et0 :=
    match md with
    | Py.dict kvs =>
      let a := pyDictGet kvs "evolution_type" Py.none
      if pyTruthy a then a else pyDictGet kvs "synthesizer_name" Py.none
    | _ => Py.none
  let evolution_type :=
    if pyTruthy et0 then et0
    else pyGetAttr row "evolution_type" (pyGetAttr row "synthesizer_name" (Py.str "unknown"))
  let lowered := pyLower (pyStr evolution_type)
  let parameter_variation_axes :=
    if strContains lowered "reasoning" || strContains lowered "abstract" then
      ["reasoning_depth", "context_complexity"]
    else if strContains lowered "multi" || strContains lowered "specific" then
      ["context_count", "cross_reference_depth"]
    else if strContains lowered "simple" || strContains lowered "single" then
      ["tone", "specificity"]
    else
      ["tone", "complexity"]
  let contexts := pyGetAttr row "contexts" (pyGetAttr row "reference_contexts" (Py.list []))
  let contexts_used :=
    match contexts with
    | Py.list xs => xs.length
    | _ => 0
  TestCase.make tc_id use_case_id name description parameter_variation_axes
    [("generator", "ragas"),
     ("evolution_type", if pyTruthy evolution_type then pyStr evolution_type else "unknown"),
     ("contexts_used", toString contexts_used)] "" [] []

/-- `adapt_ragas_row_to_test_case` with its except-fallback. -/
def adaptRagasRowToTestCase (row : PyObj) (use_case_id : String) (idx : Nat) :
    Except String TestCase :=
  match tryAdaptRagasTc row use_case_id idx with
  | .ok tc => .ok tc
  | .error e =>
    TestCase.make (ragasTcId use_case_id idx) use_case_id
      s!"Test case {idx}" "Test case adapted from Ragas testset"
      ["tone", "complexity"]
      [("generator", "ragas"), ("adaptation_error", e)] "" [] []

/-- The try-block of `adapt_ragas_row_to_example`. -/
def tryAdaptRagasEx (row : PyObj) (use_case_id test_case_id : String)
    (idx : Nat) (case fmt : String) (policyIds? : Option (List String)) :
    Except String DatasetExample := do
  let ex_id := ragasExId use_case_id idx
  let input_text := pyGetAttr row "question" (pyGetAttr row "user_input" (Py.str ""))
  let input_data ← InputData.make [⟨Role.user, pyStr input_text⟩] Option.none
  let expected0 := pyGetAttr row "ground_truth" (pyGetAttr row "reference" (Py.str ""))
  let expected_output :=
    if pdIsNa expected0 || !pyTruthy expected0 then "" else pyStr expected0
  let md := pyGetAttr row "metadata" Py.none
  let et0 :=
    match md with
    | Py.dict kvs =>
      let a := pyDictGet kvs "evolution_type" Py.none
      if pyTruthy a then a else pyDictGet kvs "synthesizer_name" Py.none
    | _ => Py.none
  let evolution_type :=
    if pyTruthy et0 then et0
    else pyGetAttr row "evolution_type" (pyGetAttr row "synthesizer_name" (Py.str "unknown"))
  let lowered := pyLower (pyStr evolution_type)
  let evaluation_criteria :=
    if strContains lowered "reasoning" || strContains lowered "abstract" then
      ["reasoning_correctness", "logical_flow", "policy_compliance",
       "answer_completeness"]
    else if strContains lowered "multi" || strContains lowered "specific" then
      ["context_integration", "cross_reference_accuracy", "policy_compliance",
       "response_completeness"]
    else
      ["relevance_to_query", "answer_accuracy", "policy_compliance"]
  let policy_ids :=
    match policyIds? with
    | some l => l
    | Option.none =>
      let contexts := pyGetAttr row "contexts" (pyGetAttr row "reference_contexts" (Py.list []))
      let extracted :=
        match contexts with
        | Py.list xs => xs.flatMap (fun x =>
            match x with
            | Py.str s => findPolIds s
            | _ => [])
        | _ => []
      let deduped := extracted.eraseDups
      if deduped = [] then ["pol_unknown"] else deduped
  let contexts := pyGetAttr row "contexts" (pyGetAttr row "reference_contexts" (Py.list []))
  let contexts_used :=
    match contexts with
    | Py.list xs => xs.length
    | _ => 0
  let baseMeta := [("generator", "ragas"),
                   ("evolution_type", if pyTruthy evolution_type then pyStr evolution_type else "unknown"),
                   ("contexts_used", toString contexts_used)]
  let metadata := baseMeta ++
    (match md with
     | Py.dict kvs =>
       (kvs.filter (fun kv => ¬ (baseMeta.map Prod.fst).contains kv.1)).map
         (fun kv => (kv.1, pyStr kv.2))
     | _ => [])
  DatasetExample.make ex_id case fmt use_case_id test_case_id input_data
    expected_output evaluation_criteria policy_ids metadata

/-- `adapt_ragas_row_to_example` with its except-fallback. -/
def adaptRagasRowToExample (row : PyObj) (use_case_id test_case_id : String)
    (idx : Nat) (case fmt : String) (policyIds? : Option (List String)) :
    Except String DatasetExample :=
  match tryAdaptRagasEx row use_case_id test_case_id idx case fmt policyIds? with
  | .ok ex => .ok ex
  | .error e => do
    let inp ← InputData.make [⟨Role.user, ""⟩] Option.none
    DatasetExample.make (ragasExId use_case_id idx) case fmt use_case_id
      test_case_id inp "" ["relevance", "policy_compliance", "completeness"]
      (match policyIds? with
       | some l => if l ≠ [] then l else ["pol_unknown"]
       | Option.none => ["pol_unknown"])
      [("generator", "ragas"), ("adaptation_error", e)]

/-- The try-block of `adapt_giskard_row_to_test_case`. -/
def tryAdaptGiskardTc (row : PyObj) (use_case_id : String) (idx : Nat) :
    Except String TestCase := do
  let tc_id := giskardTcId use_case_id idx
  let question := pyGetAttr row "question" (Py.str "")
  let name :=
    if pyTruthy question then pyStrTake (pyStr question) 80
    else s!"Test case {idx}"
  let name :=
    if (pyStr question).data.length > 80 then rsplitFirst name ++ "..." else name
  let reference_answer := pyGetAttr row "reference_answer" (Py.str "")
  let description :=
    if !pdIsNa reference_answer && pyTruthy reference_answer then
      pyStrTake (pyStr reference_answer) 200
    else if pyTruthy question then pyStrTake (pyStr question) 200
    else s!"Test case for {use_case_id}"
  let md := pyGetAttr row "metadata" Py.none
  let question_type :=
    match md with
    | Py.dict kvs => pyDictGet kvs "question_type" (Py.str "unknown")
    | _ => Py.str "unknown"
  let lowered := pyLower (pyStr question_type)
  let parameter_variation_axes :=
    if strContains lowered "complex" || strContains lowered "multi" then
      ["context_complexity", "knowledge_depth"]
    else if strContains lowered "simple" || strContains lowered "direct" then
      ["tone", "specificity"]
    else if strContains lowered "conversational" then
      ["conversation_style", "formality_level"]
    else
      ["question_complexity", "knowledge_specificity"]
  let reference_context := pyGetAttr row "reference_context" (Py.str "")
  let reference_context_preview :=
    if pyTruthy reference_context then pyStrTake (pyStr reference_context) 200 else ""
  TestCase.make tc_id use_case_id name description parameter_variation_axes
    [("generator", "giskard"), ("question_type", pyStr question_type),
     ("reference_context", reference_context_preview)] "" [] []

/-- `adapt_giskard_row_to_test_case` with its except-fallback. -/
def adaptGiskardRowToTestCase (row : PyObj) (use_case_id : String) (idx : Nat) :
    Except String TestCase :=
  match tryAdaptGiskardTc row use_case_id idx with
  | .ok tc => .ok tc
  | .error e =>
    TestCase.make (giskardTcId use_case_id idx) use_case_id
      s!"Test case {idx}" "Test case adapted from Giskard testset"
      ["tone", "complexity"]
      [("generator", "giskard"), ("adaptation_error", e)] "" [] []

/-- The try-block of `adapt_giskard_row_to_example`. -/
def tryAdaptGiskardEx (row : PyObj) (use_case_id test_case_id : String)
    (idx : Nat) (case fmt : String) (policyIds? : Option (List String)) :
    Except String DatasetExample := do
  let ex_id := giskardExId use_case_id idx
  let input_text := pyGetAttr row "question" (Py.str "")
  let input_data ← InputData.make [⟨Role.user, pyStr input_text⟩] Option.none
  let expected0 := pyGetAttr row "reference_answer" (Py.str "")
  let expected_output :=
    if pdIsNa expected0 || !pyTruthy expected0 then "" else pyStr expected0
  let md := pyGetAttr row "metadata" Py.none
  let question_type :=
    match md with
    | Py.dict kvs => pyDictGet kvs "question_type" (Py.str "unknown")
    | _ => Py.str "unknown"
  let lowered := pyLower (pyStr question_type)
  let evaluation_criteria :=
    if strContains lowered "complex" || strContains lowered "multi" then
      ["knowledge_accuracy", "context_relevance", "answer_completeness",
       "policy_compliance"]
    else if strContains lowered "conversational" then
      ["conversation_naturalness", "answer_relevance", "policy_compliance"]
    else
      ["knowledge_accuracy", "answer_relevance", "policy_compliance"]
  let policy_ids :=
    match policyIds? with
    | some l => l
    | Option.none =>
      let reference_context := pyGetAttr row "reference_context" (Py.str "")
      let extracted :=
        match reference_context with
        | Py.str s => findPolIds s
        | _ => []
      let deduped := extracted.eraseDups
      if deduped = [] then ["pol_unknown"] else deduped
  let reference_context := pyGetAttr row "reference_context" (Py.str "")
  let reference_context_preview :=
    if pyTruthy reference_context then pyStrTake (pyStr reference_context) 200 else ""
  let baseMeta := [("generator", "giskard"),
                   ("question_type", pyStr question_type),
                   ("reference_context", reference_context_preview)]
  let metadata := baseMeta ++
    (match md with
     | Py.dict kvs =>
       (kvs.filter (fun kv => ¬ (baseMeta.map Prod.fst).contains kv.1)).map
         (fun kv => (kv.1, pyStr kv.2))
     | _ => [])
  DatasetExample.make ex_id case fmt use_case_id test_case_id input_data
    expected_output evaluation_criteria policy_ids metadata

/-- `adapt_giskard_row_to_example` with its except-fallback. -/
def adaptGiskardRowToExample (row : PyObj) (use_case_id test_case_id : String)
    (idx : Nat) (case fmt : String) (policyIds? : Option (List String)) :
    Except String DatasetExample :=
  match tryAdaptGiskardEx row use_case_id test_case_id idx case fmt policyIds? with
  | .ok ex => .ok ex
  | .error e => do
    let inp ← InputData.make [⟨Role.user, ""⟩] Option.none
    DatasetExample.make (giskardExId use_case_id idx) case fmt use_case_id
      test_case_id inp "" ["relevance", "policy_compliance", "completeness"]
      (match policyIds? with
       | some l => if l ≠ [] then l else ["pol_unknown"]
       | Option.none => ["pol_unknown"])
      [("generator", "giskard"), ("adaptation_error", e)]

lemma pyStartsWith_append (pre s : String) : pyStartsWith (pre ++ s) pre = true := by
  unfold pyStartsWith
  rw [String.data_append]
  generalize pre.data = l
  induction l with
  | nil => simp [List.isPrefixOf]
  | cons c rest ih => simp [List.isPrefixOf, ih]

lemma fallbackTestCase_ok (rest uc name descr : String)
    (md : List (String × String)) (huc : pyStartsWith uc "uc_" = true) :
    raises (TestCase.make ("tc_" ++ rest) uc name descr ["tone", "complexity"]
      md "" [] []) = false := by
  unfold TestCase.make
  rw [if_neg (by simp [pyStartsWith_append]), if_neg (by simp [huc]),
      if_neg (by decide)]
  rfl

lemma fallbackExample_ok (rest uc tcid case fmt : String)
    (pols : List String) (md : List (String × String))
    (huc : pyStartsWith uc "uc_" = true) (htc : pyStartsWith tcid "tc_" = true)
    (hne : pols ≠ [])
    (hall : ∀ pid ∈ pols, pyStartsWith pid "pol_" = true) :
    raises (do
      let inp ← InputData.make [⟨Role.user, ""⟩] Option.none
      DatasetExample.make ("ex_" ++ rest) case fmt uc tcid inp ""
        ["relevance", "policy_compliance", "completeness"] pols md) = false := by
  show raises (DatasetExample.make ("ex_" ++ rest) case fmt uc tcid
    ⟨[⟨Role.user, ""⟩], Option.none⟩ ""
    ["relevance", "policy_compliance", "completeness"] pols md) = false
  unfold DatasetExample.make
  rw [if_neg (by simp [pyStartsWith_append]), if_neg (by simp [huc]),
      if_neg (by simp [htc]), if_neg (by decide),
      if_neg (by simp [Nat.lt_one_iff, List.length_eq_zero, hne]),
      List.find?_eq_none.mpr (fun pid hpid => by simp [hall pid hpid])]
  rfl

/-- C7: the external-engine adapters never propagate an exception —
for every input record (an arbitrary attribute map) each of the six
adapter functions returns a schema-valid record, falling back on any
mapping error to the minimal valid record with safe defaults
(placeholder strings, fallback policy id `pol_unknown`). The
hypotheses are the orchestrator's calling convention: a `uc_`-prefixed
use-case id, a `tc_`-prefixed test-case id and, when a policy-id list
is supplied, `pol_`-prefixed policy ids. -/
theorem C7_adapters_never_raise :
    ∀ (golden row : PyObj) (use_case_id test_case_id : String) (idx : Nat)
      (case fmt : String) (policyIds? : Option (List String)),
    pyStartsWith use_case_id "uc_" = true →
    pyStartsWith test_case_id "tc_" = true →
    (∀ pids, policyIds? = some pids → ∀ pid ∈ pids,
      pyStartsWith pid "pol_" = true) →
    raises (adaptDeepevalGoldenToTestCase golden use_case_id idx) = false
  ∧ raises (adaptRagasRowToTestCase row use_case_id idx) = false
  ∧ raises (adaptGiskardRowToTestCase row use_case_id idx) = false
  ∧ raises (adaptDeepevalGoldenToExample golden use_case_id test_case_id idx
      case fmt policyIds?) = false
  ∧ raises (adaptRagasRowToExample row use_case_id test_case_id idx
      case fmt policyIds?) = false
  ∧ raises (adaptGiskardRowToExample row use_case_id test_case_id idx
      case fmt policyIds?) = false := by
  intro golden row uc tcid idx case fmt policyIds? huc htc hpol
  refine ⟨?_, ?_, ?_, ?_, ?_, ?_⟩
  · cases h : tryAdaptDeepevalTc golden uc idx with
    | ok tc => simp [adaptDeepevalGoldenToTestCase, h, raises]
    | error e =>
      simp only [adaptDeepevalGoldenToTestCase, h]
      rw [show deepevalTcId uc idx = "tc_" ++ (stripUc uc ++ pad3 idx) from by
        unfold deepevalTcId; rw [String.append_assoc]]
      exact fallbackTestCase_ok _ _ _ _ _ huc
  · cases h : tryAdaptRagasTc row uc idx with
    | ok tc => simp [adaptRagasRowToTestCase, h, raises]
    | error e =>
      simp only [adaptRagasRowToTestCase, h]
      rw [show ragasTcId uc idx = "tc_" ++ (stripUc uc ++ pad3 idx) from by
        unfold ragasTcId; rw [String.append_assoc]]
      exact fallbackTestCase_ok _ _ _ _ _ huc
  · cases h : tryAdaptGiskardTc row uc idx with
    | ok tc => simp [adaptGiskardRowToTestCase, h, raises]
    | error e =>
      simp only [adaptGiskardRowToTestCase, h]
      rw [show giskardTcId uc idx = "tc_" ++ (stripUc uc ++ pad3 idx) from by
        unfold giskardTcId; rw [String.append_assoc]]
      exact fallbackTestCase_ok _ _ _ _ _ huc
  · cases h : tryAdaptDeepevalEx golden uc tcid idx case fmt policyIds? with
    | ok ex => simp [adaptDeepevalGoldenToExample, h, raises]
    | error e =>
      simp only [adaptDeepevalGoldenToExample, h]
      rw [show deepevalExId uc idx = "ex_" ++ (stripUc uc ++ pad3 idx) from by
        unfold deepevalExId; rw [String.append_assoc]]
      cases policyIds? with
      | none =>
        exact fallbackExample_ok _ _ _ _ _ _ _ huc htc (by decide) (by decide)
      | some l =>
        by_cases hl : l = []
        · subst hl
          exact fallbackExample_ok _ _ _ _ _ _ _ huc htc (by decide) (by decide)
        · have hred : (match some l with
              | some l => if l ≠ [] then l else ["pol_unknown"]
              | Option.none => ["pol_unknown"]) = l := by simp [hl]
          rw [hred]
          exact fallbackExample_ok _ _ _ _ _ _ _ huc htc hl
            (fun pid hpid => hpol l rfl pid hpid)
  · cases h : tryAdaptRagasEx row uc tcid idx case fmt policyIds? with
    | ok ex => simp [adaptRagasRowToExample, h, raises]
    | error e =>
      simp only [adaptRagasRowToExample, h]
      rw [show ragasExId uc idx = "ex_" ++ (stripUc uc ++ pad3 idx) from by
        unfold ragasExId; rw [String.append_assoc]]
      cases policyIds? with
      | none =>
        exact fallbackExample_ok _ _ _ _ _ _ _ huc htc (by decide) (by decide)
      | some l =>
        by_cases hl : l = []
        · subst hl
          exact fallbackExample_ok _ _ _ _ _ _ _ huc htc (by decide) (by decide)
        · have hred : (match some l with
              | some l => if l ≠ [] then l else ["pol_unknown"]
              | Option.none => ["pol_unknown"]) = l := by simp [hl]
          rw [hred]
          exact fallbackExample_ok _ _ _ _ _ _ _ huc htc hl
            (fun pid hpid => hpol l rfl pid hpid)
  · cases h : tryAdaptGiskardEx row uc tcid idx case fmt policyIds? with
    | ok ex => simp [adaptGiskardRowToExample, h, raises]
    | error e =>
      simp only [adaptGiskardRowToExample, h]
      rw [show giskardExId uc idx = "ex_" ++ (stripUc uc ++ pad3 idx) from by
        unfold giskardExId; rw [String.append_assoc]]
      cases policyIds? with
      | none =>
        exact fallbackExample_ok _ _ _ _ _ _ _ huc htc (by decide) (by decide)
      | some l =>
        by_cases hl : l = []
        · subst hl
          exact fallbackExample_ok _ _ _ _ _ _ _ huc htc (by decide) (by decide)
        · have hred : (match some l with
              | some l => if l ≠ [] then l else ["pol_unknown"]
              | Option.none => ["pol_unknown"]) = l := by simp [hl]
          rw [hred]
          exact fallbackExample_ok _ _ _ _ _ _ _ huc htc hl
            (fun pid hpid => hpol l rfl pid hpid)

/-- C7 witness: concrete empty records (every attribute missing) and a
valid calling convention — none of the six adapters raises. -/
theorem C7_adapters_never_raise_witness :
    raises (adaptDeepevalGoldenToTestCase [] "uc_001" 1) = false
  ∧ raises (adaptRagasRowToTestCase [] "uc_001" 1) = false
  ∧ raises (adaptGiskardRowToTestCase [] "uc_001" 1) = false
  ∧ raises (adaptDeepevalGoldenToExample [] "uc_001" "tc_001001" 1
      "support_bot" "single_turn_qa" Option.none) = false
  ∧ raises (adaptRagasRowToExample [] "uc_001" "tc_001001" 1
      "support_bot" "single_turn_qa" Option.none) = false
  ∧ raises (adaptGiskardRowToExample [] "uc_001" "tc_001001" 1
      "support_bot" "single_turn_qa" Option.none) = false :=
  C7_adapters_never_raise [] [] "uc_001" "tc_001001" 1 "support_bot"
    "single_turn_qa" Option.none (by decide) (by decide)
    (fun pids h => by cases h)

/-! ## Generation orchestrator (`generation/orchestrator.py`) -/

/-- One format adapter as seen by the orchestrator: `generate_example`
is an external structured-generation call that may raise;
`validate_format` is a pure check returning violations (only logged by
the orchestrator). The fixed per-run arguments (policies, model, seed)
are closed over. -/
structure AdapterBehavior where
  generateExample : String → String → Dict → Except String DatasetExample
  validateFormat : DatasetExample → List String

/-- One tool call selected by the routing LLM. -/
structure ToolCall where
  name : String

/-- The external effects of `orchestrate_generation`, injected:
adapter lookup (`get_adapter_for_format`, raises on unknown format),
the tool-routing LLM call, the scratch policy-document preparation,
the three backend invocations (`_invoke_deepeval` / `_invoke_ragas` /
`_invoke_giskard`, each generator call plus row adaptation), the
source classifier (total — `classify_source_type` catches its own LLM
failures and defaults to `tickets`), and the last-resort generator
`generate_with_openai_fallback` (also standing in for
`_generate_with_fallback_only`). -/
structure OrchEnv where
  getAdapter : String → String → Except String AdapterBehavior
  toolCalls : Except String (List ToolCall)
  preparePolicyDoc : Except String String
  invokeDeepeval : ToolCall → Except String (List TestCase × List DatasetExample)
  invokeRagas : ToolCall → Except String (List TestCase × List DatasetExample)
  invokeGiskard : ToolCall → Except String (List TestCase × List DatasetExample)
  classifySource : String → String → Dict → String
  fallbackGen : Nat → Except String (List TestCase × List DatasetExample)

/-- `params.pop("_variation_axes", [])` — the popped dominant-axis tag
(the router always stores a list of axis names under this key). -/
def popAxes (d : Dict) : List String :=
  match (dpop d "_variation_axes").1 with
  | some (Val.axes vs) => vs
  | some _ => []
  | Option.none => []

/-- The parameter dict after the destructive
`params.pop("_variation_axes", [])`. -/
def strippedParams (d : Dict) : Dict :=
  (dpop d "_variation_axes").2

/-- Line 145 of the orchestrator:
`variation_axes[:3] if len(variation_axes) >= 2 else
variation_axes + ["default", "default"][:3-len(variation_axes)]`. -/
def clipAxes (variation_axes : List String) : List String :=
  if 2 ≤ variation_axes.length then variation_axes.take 3
  else variation_axes ++ (["default", "default"].take (3 - variation_axes.length))

/-- `f"tc_{use_case.id.replace('uc_', '')}_{format_name}_{idx:03d}"`. -/
def primaryTcId (use_case_id fmt : String) (idx : Nat) : String :=
  "tc_" ++ stripUc use_case_id ++ "_" ++ fmt ++ "_" ++ pad3 idx

/-- Python `repr` of a parameter value (used only inside the minted
test case's description text). -/
def reprVal : Val → String
  | .s v => "'" ++ v ++ "'"
  | .b true => "True"
  | .b false => "False"
  | .axes vs => "[" ++ String.intercalate ", " (vs.map (fun v => "'" ++ v ++ "'")) ++ "]"

/-- Python `str(params)` for the description text. -/
def reprDict (d : Dict) : String :=
  "\x7b" ++ String.intercalate ", "
    (d.map (fun kv => "'" ++ kv.1 ++ "': " ++ reprVal kv.2)) ++ "\x7d"

/-- `metadata[k] = v` on the string-metadata map. -/
def metaSet (md : List (String × String)) (k v : String) :
    List (String × String) :=
  if md.any (fun kv => kv.1 == k) then
    md.map (fun kv => if kv.1 == k then (kv.1, v) else kv)
  else md ++ [(k, v)]

/-- The freshly minted primary-pass `TestCase` for variation `idx`
(1-based), exactly the record `TestCase(...)` receives in the
orchestrator's inner loop. -/
def mintTc (ucId ucName case fmt : String) (policyIds : List String)
    (idx : Nat) (d : Dict) : TestCase :=
  ⟨primaryTcId ucId fmt idx, ucId, s!"{ucName} - {fmt} - variation {idx}",
   "Test case for " ++ ucName ++ " with parameters: " ++ reprDict (strippedParams d),
   clipAxes (popAxes d), [("generator", "format_adapter")], case,
   strippedParams d, policyIds⟩

/-- The post-generation transformation of a successful example:
`example.case = case`, and for `support_bot` the
`metadata["source"]` classification of the first user message. -/
def transformExample (env : OrchEnv) (case ucDescr : String) (params : Dict)
    (ex0 : DatasetExample) : DatasetExample :=
  let ex1 := { ex0 with case := case }
  if case == "support_bot" then
    let user_content :=
      match ex1.input.messages.find? (fun m => m.role == Role.user) with
      | some m => m.content
      | Option.none => ""
    { ex1 with metadata :=
        (metaSet ex1.metadata "source" (env.classifySource ucDescr user_content params)) }
  else ex1

/-- The body of the per-variation `try` block (orchestrator lines
131–195): pop the tag, mint and append the `TestCase` (before the
adapter call!), call `generate_example`, set `case`, classify
`metadata.source` for `support_bot`, call `validate_format` (warnings
only), append the example. Any exception at a step keeps what was
already appended and moves on (`continue`); the popped dict replaces
the original in the `variations` list (Python mutates it in place). -/
def runVariation (env : OrchEnv) (ad : AdapterBehavior)
    (ucId ucName ucDescr case fmt : String) (policyIds : List String)
    (idx : Nat) (d : Dict) (tcs : List TestCase)
    (exs : List DatasetExample) :
    Dict × List TestCase × List DatasetExample :=
  let params := strippedParams d
  let tc_id := primaryTcId ucId fmt idx
  match TestCase.make tc_id ucId s!"{ucName} - {fmt} - variation {idx}"
      ("Test case for " ++ ucName ++ " with parameters: " ++ reprDict params)
      (clipAxes (popAxes d)) [("generator", "format_adapter")] case params
      policyIds with
  | .error _ => (params, tcs, exs)
  | .ok tc =>
    let tcs := tcs ++ [tc]
    match ad.generateExample ucId tc_id params with
    | .error _ => (params, tcs, exs)
    | .ok ex0 =>
      let ex := transformExample env case ucDescr params ex0
      let _ := ad.validateFormat ex
      (params, tcs, exs ++ [ex])

/-- The `for idx, params in enumerate(variations, start=1)` loop for
one format; the first component threads the (mutated) variations
list. -/
def runVariations (env : OrchEnv) (ad : AdapterBehavior)
    (ucId ucName ucDescr case fmt : String) (policyIds : List String) :
    List Dict → Nat → List TestCase → List DatasetExample →
    List Dict × List TestCase × List DatasetExample
  | [], _, tcs, exs => ([], tcs, exs)
  | d :: rest, idx, tcs, exs =>
    let r := runVariation env ad ucId ucName ucDescr case fmt policyIds idx d tcs exs
    let r' := runVariations env ad ucId ucName ucDescr case fmt policyIds rest
      (idx + 1) r.2.1 r.2.2
    (r.1 :: r'.1, r'.2.1, r'.2.2)

/-- The `for format_name in formats` loop (orchestrator lines
122–199): adapter-lookup failure for a format is caught and skips the
whole format. -/
def runFormats (env : OrchEnv) (ucId ucName ucDescr case : String)
    (policyIds : List String) :
    List String → List Dict → List TestCase → List DatasetExample →
    List Dict × List TestCase × List DatasetExample
  | [], vars, tcs, exs => (vars, tcs, exs)
  | fmt :: rest, vars, tcs, exs =>
    match env.getAdapter fmt case with
    | .error _ => runFormats env ucId ucName ucDescr case policyIds rest vars tcs exs
    | .ok ad =>
      let r := runVariations env ad ucId ucName ucDescr case fmt policyIds vars 1 tcs exs
      runFormats env ucId ucName ucDescr case policyIds rest r.1 r.2.1 r.2.2

/-- Step 3 (orchestrator lines 210–260): the supplementary
framework-based pass — tool-routing call, scratch policy document,
per-tool-call backend dispatch with individually caught failures.
The whole step never raises. -/
def runSupplement (env : OrchEnv) (tcs : List TestCase)
    (exs : List DatasetExample) : List TestCase × List DatasetExample :=
  match env.toolCalls with
  | .error _ => (tcs, exs)
  | .ok calls =>
    if !calls.isEmpty then
      match env.preparePolicyDoc with
      | .error _ => (tcs, exs)
      | .ok _ =>
        calls.foldl (fun acc c =>
          let r : Except String (List TestCase × List DatasetExample) :=
            if c.name == "generate_with_deepeval" then env.invokeDeepeval c
            else if c.name == "generate_with_ragas" then env.invokeRagas c
            else if c.name == "generate_with_giskard" then env.invokeGiskard c
            else .ok ([], [])
          match r with
          | .ok be => (acc.1 ++ be.1, acc.2 ++ be.2)
          | .error _ => acc) (tcs, exs)
    else (tcs, exs)

/-- `orchestrate_generation(use_case, policies, ...)`. The argument
`variationsE` is the outcome of the `generate_variations` call inside
the outer `try` (lines 110–207): its exception is the only uncaught
raise in steps 1–2 and routes to `_generate_with_fallback_only`, which
is `env.fallbackGen`. -/
def orchestrateGeneration (env : OrchEnv) (ucId ucName ucDescr : String)
    (policyIds : List String) (minTc : Nat) (case : String)
    (formats? : Option (List String))
    (variationsE : Except String (List Dict)) :
    Except String (List TestCase × List DatasetExample) :=
  let formats :=
    match formats? with
    | some fs => fs
    | Option.none =>
      if case == "operator_quality" then
        ["single_utterance_correction", "dialog_last_turn_correction"]
      else ["single_turn_qa"]
  match variationsE with
  | .error _ => env.fallbackGen minTc
  | .ok variations =>
    let r := runFormats env ucId ucName ucDescr case policyIds formats
      variations [] []
    let afterSupplement :=
      if r.2.1.length < minTc then runSupplement env r.2.1 r.2.2
      else (r.2.1, r.2.2)
    if afterSupplement.1.length < minTc then
      match env.fallbackGen (minTc - afterSupplement.1.length) with
      | .error e => .error e
      | .ok fb => .ok (afterSupplement.1 ++ fb.1, afterSupplement.2 ++ fb.2)
    else
      .ok (afterSupplement.1, afterSupplement.2)

/-- Indexed map with an explicit start index (the shape of
`enumerate(variations, start=idx)`). -/
def mapWithIdx {α β : Type} (f : Nat → α → β) : Nat → List α → List β
  | _, [] => []
  | i, a :: rest => f i a :: mapWithIdx f (i + 1) rest

lemma mapWithIdx_length {α β : Type} (f : Nat → α → β) :
    ∀ (i : Nat) (l : List α), (mapWithIdx f i l).length = l.length := by
  intro i l
  induction l generalizing i with
  | nil => rfl
  | cons a rest ih => simp [mapWithIdx, ih]

lemma mapWithIdx_mem {α β : Type} (f : Nat → α → β) :
    ∀ (i : Nat) (l : List α) (x : β), x ∈ mapWithIdx f i l →
      ∃ j a, a ∈ l ∧ x = f j a := by
  intro i l
  induction l generalizing i with
  | nil => intro x hx; exact absurd hx (by simp [mapWithIdx])
  | cons a rest ih =>
    intro x hx
    rcases List.mem_cons.mp hx with rfl | hx'
    · exact ⟨i, a, List.mem_cons_self _ _, rfl⟩
    · obtain ⟨j, b, hb, rfl⟩ := ih _ x hx'
      exact ⟨j, b, List.mem_cons_of_mem _ hb, rfl⟩

lemma reduceOption_all_none {α : Type} :
    ∀ (l : List (Option α)), (∀ x ∈ l, x = Option.none) → l.reduceOption = [] := by
  intro l
  induction l with
  | nil => intro _; rfl
  | cons x rest ih =>
    intro h
    rw [h x (List.mem_cons_self _ _), List.reduceOption_cons_of_none]
    exact ih (fun y hy => h y (List.mem_cons_of_mem _ hy))

lemma clipAxes_len (vs : List String) :
    2 ≤ (clipAxes vs).length ∧ (clipAxes vs).length ≤ 3 := by
  unfold clipAxes
  by_cases h : 2 ≤ vs.length
  · rw [if_pos h]
    rw [List.length_take]
    omega
  · rw [if_neg h]
    rw [List.length_append, List.length_take]
    simp only [List.length_cons, List.length_singleton]
    omega

lemma primaryTcId_starts_tc (uc fmt : String) (idx : Nat) :
    pyStartsWith (primaryTcId uc fmt idx) "tc_" = true := by
  unfold primaryTcId
  simp only [String.append_assoc]
  exact pyStartsWith_append _ _

lemma TestCase_make_ok (id uc name descr : String) (axes : List String)
    (md : List (String × String)) (case : String) (params : Dict)
    (pols : List String)
    (hid : pyStartsWith id "tc_" = true) (huc : pyStartsWith uc "uc_" = true)
    (haxes : 2 ≤ axes.length ∧ axes.length ≤ 3)
    (hpols : ∀ p ∈ pols, pyStartsWith p "pol_" = true) :
    TestCase.make id uc name descr axes md case params pols =
      .ok ⟨id, uc, name, descr, axes, md, case, params, pols⟩ := by
  unfold TestCase.make
  rw [if_neg (by simp [hid]), if_neg (by simp [huc]),
      if_neg (by simp [haxes.1, haxes.2]),
      List.find?_eq_none.mpr (fun p hp => by simp [hpols p hp])]

/-- The per-variation closed form of one format pass: every variation
mints its `TestCase` (present even when the adapter call fails), each
adapter success appends a transformed example, the `variations` list
ends up destructively popped. -/
lemma runVariations_spec (env : OrchEnv) (ad : AdapterBehavior)
    (ucId ucName ucDescr case fmt : String) (policyIds : List String)
    (huc : pyStartsWith ucId "uc_" = true)
    (hpols : ∀ p ∈ policyIds, pyStartsWith p "pol_" = true) :
    ∀ (vars : List Dict) (idx0 : Nat) (tcs0 : List TestCase)
      (exs0 : List DatasetExample),
    runVariations env ad ucId ucName ucDescr case fmt policyIds vars idx0 tcs0 exs0 =
      (vars.map strippedParams,
       tcs0 ++ mapWithIdx (fun i d => mintTc ucId ucName case fmt policyIds i d) idx0 vars,
       exs0 ++ (mapWithIdx (fun i d =>
         match ad.generateExample ucId (primaryTcId ucId fmt i) (strippedParams d) with
         | .ok ex0 => some (transformExample env case ucDescr (strippedParams d) ex0)
         | .error _ => Option.none) idx0 vars).reduceOption) := by
  intro vars
  induction vars with
  | nil =>
    intro idx0 tcs0 exs0
    simp [runVariations, mapWithIdx, List.reduceOption_nil]
  | cons d rest ih =>
    intro idx0 tcs0 exs0
    have hmk := TestCase_make_ok (primaryTcId ucId fmt idx0) ucId
      (s!"{ucName} - {fmt} - variation {idx0}")
      ("Test case for " ++ ucName ++ " with parameters: " ++ reprDict (strippedParams d))
      (clipAxes (popAxes d)) [("generator", "format_adapter")] case
      (strippedParams d) policyIds (primaryTcId_starts_tc _ _ _) huc
      (clipAxes_len _) hpols
    show (let r := runVariation env ad ucId ucName ucDescr case fmt policyIds idx0 d tcs0 exs0
          let r' := runVariations env ad ucId ucName ucDescr case fmt policyIds rest
            (idx0 + 1) r.2.1 r.2.2
          (r.1 :: r'.1, r'.2.1, r'.2.2)) = _
    unfold runVariation
    dsimp only
    rw [hmk]
    cases hgen : ad.generateExample ucId (primaryTcId ucId fmt idx0) (strippedParams d) with
    | error e =>
      simp only [ih, mapWithIdx, hgen, List.reduceOption_cons_of_none,
        List.map_cons]
      simp [List.append_assoc, mintTc]
    | ok ex0 =>
      simp only [ih, mapWithIdx, hgen, List.reduceOption_cons_of_some,
        List.map_cons]
      simp [List.append_assoc, mintTc]

lemma runFormats_single (env : OrchEnv) (ucId ucName ucDescr case : String)
    (policyIds : List String) (fmt : String) (ad : AdapterBehavior)
    (vars : List Dict) (tcs : List TestCase) (exs : List DatasetExample)
    (hget : env.getAdapter fmt case = .ok ad) :
    runFormats env ucId ucName ucDescr case policyIds [fmt] vars tcs exs =
      runVariations env ad ucId ucName ucDescr case fmt policyIds vars 1 tcs exs := by
  unfold runFormats
  rw [hget]
  rfl

lemma runFormats_failing (env : OrchEnv) (ucId ucName ucDescr case : String)
    (policyIds : List String)
    (huc : pyStartsWith ucId "uc_" = true)
    (hpols : ∀ p ∈ policyIds, pyStartsWith p "pol_" = true) :
    ∀ (formats : List String) (vars : List Dict) (tcs : List TestCase)
      (exs : List DatasetExample),
    (∀ fmt ∈ formats, ∃ ad, env.getAdapter fmt case = .ok ad ∧
       ∀ u t p, ∃ e, ad.generateExample u t p = .error e) →
    ∃ varsOut tcsNew,
      runFormats env ucId ucName ucDescr case policyIds formats vars tcs exs =
        (varsOut, tcs ++ tcsNew, exs) ∧
      tcsNew.length = formats.length * vars.length ∧
      (∀ tc ∈ tcsNew, tc.metadata = [("generator", "format_adapter")]) := by
  intro formats
  induction formats with
  | nil =>
    intro vars tcs exs _
    exact ⟨vars, [], by simp [runFormats], by simp, by simp⟩
  | cons fmt rest ih =>
    intro vars tcs exs hfail
    obtain ⟨ad, hget, hgen⟩ := hfail fmt (List.mem_cons_self _ _)
    have hrv := runVariations_spec env ad ucId ucName ucDescr case fmt policyIds
      huc hpols vars 1 tcs exs
    have hnone : (mapWithIdx (fun i d =>
        match ad.generateExample ucId (primaryTcId ucId fmt i) (strippedParams d) with
        | .ok ex0 => some (transformExample env case ucDescr (strippedParams d) ex0)
        | .error _ => Option.none) 1 vars).reduceOption = [] := by
      apply reduceOption_all_none
      intro x hx
      obtain ⟨j, a, _, rfl⟩ := mapWithIdx_mem _ _ _ x hx
      obtain ⟨e, he⟩ := hgen ucId (primaryTcId ucId fmt j) (strippedParams a)
      rw [he]
    rw [hnone, List.append_nil] at hrv
    obtain ⟨varsOut, tcsNew, hrun, hlen, hmeta⟩ :=
      ih (vars.map strippedParams)
        (tcs ++ mapWithIdx (fun i d => mintTc ucId ucName case fmt policyIds i d) 1 vars)
        exs (fun f hf => hfail f (List.mem_cons_of_mem _ hf))
    refine ⟨varsOut,
      mapWithIdx (fun i d => mintTc ucId ucName case fmt policyIds i d) 1 vars ++ tcsNew,
      ?_, ?_, ?_⟩
    · show (match env.getAdapter fmt case with
        | .error _ =>
          runFormats env ucId ucName ucDescr case policyIds rest vars tcs exs
        | .ok ad =>
          let r := runVariations env ad ucId ucName ucDescr case fmt policyIds vars 1 tcs exs
          runFormats env ucId ucName ucDescr case policyIds rest r.1 r.2.1 r.2.2) = _
      rw [hget]
      dsimp only
      rw [hrv]
      dsimp only
      rw [hrun, List.append_assoc]
    · rw [List.length_append, mapWithIdx_length, hlen, List.length_map,
        List.length_cons, Nat.succ_mul]
      exact Nat.add_comm _ _
    · intro tc htc
      rcases List.mem_append.mp htc with h | h
      · obtain ⟨j, a, _, rfl⟩ := mapWithIdx_mem _ _ _ tc h
        rfl
      · exact hmeta tc h

/-- C1 (amended): when every `generate_example` call fails
deterministically (and the backend tier fails or is never consulted),
`orchestrate_generation` still returns at least `min_test_cases` test
cases — but they are minted by the primary pass *before* each failing
adapter call (metadata generator `format_adapter`), the examples list
is empty, and the last-resort generator is never invoked; the
last-resort generator supplies the output only when the primary pass
also mints nothing. Second part: `orchestrate_generation` raises only
if `generate_with_openai_fallback` itself raises (every other failure
is caught), and it propagates exactly the fallback's error. -/
theorem C1_forward_progress :
    (∀ (env : OrchEnv) (ucId ucName ucDescr : String) (policyIds : List String)
       (minTc : Nat) (case : String) (formats : List String)
       (variations : List Dict),
      pyStartsWith ucId "uc_" = true →
      (∀ p ∈ policyIds, pyStartsWith p "pol_" = true) →
      formats ≠ [] →
      minTc ≤ variations.length →
      (∀ fmt ∈ formats, ∃ ad, env.getAdapter fmt case = .ok ad ∧
         ∀ u t p, ∃ e, ad.generateExample u t p = .error e) →
      ∃ tcs, orchestrateGeneration env ucId ucName ucDescr policyIds minTc case
          (some formats) (.ok variations) = .ok (tcs, []) ∧
        minTc ≤ tcs.length ∧
        ∀ tc ∈ tcs, tc.metadata = [("generator", "format_adapter")])
  ∧ (∀ (env : OrchEnv) (ucId ucName ucDescr : String) (policyIds : List String)
       (minTc : Nat) (case : String) (formats? : Option (List String))
       (variationsE : Except String (List Dict)) (e : String),
      orchestrateGeneration env ucId ucName ucDescr policyIds minTc case
        formats? variationsE = .error e →
      ∃ n, env.fallbackGen n = .error e) := by
  constructor
  · intro env ucId ucName ucDescr policyIds minTc case formats variations
      huc hpols hfne hmin hfail
    obtain ⟨varsOut, tcsNew, hrun, hlen, hmeta⟩ :=
      runFormats_failing env ucId ucName ucDescr case policyIds huc hpols
        formats variations [] [] hfail
    rw [List.nil_append] at hrun
    have hfpos : 0 < formats.length := List.length_pos.mpr hfne
    have hlen2 : minTc ≤ tcsNew.length := by
      rw [hlen]
      calc minTc ≤ variations.length := hmin
        _ ≤ formats.length * variations.length :=
          Nat.le_mul_of_pos_left _ hfpos
    refine ⟨tcsNew, ?_, hlen2, hmeta⟩
    unfold orchestrateGeneration
    dsimp only
    rw [hrun]
    dsimp only
    have hnotlt : ¬ (tcsNew.length < minTc) := by omega
    rw [if_neg hnotlt]
    dsimp only
    rw [if_neg hnotlt]
  · intro env ucId ucName ucDescr policyIds minTc case formats? variationsE e h
    unfold orchestrateGeneration at h
    cases variationsE with
    | error err => exact ⟨minTc, h⟩
    | ok variations =>
      dsimp only at h
      repeat' split at h
      all_goals
        first
        | (rename_i x heq
           injection h with hx
           subst hx
           exact ⟨_, heq⟩)
        | exact absurd h (by simp)

/-- C1 counterexample: with every `generate_example` call failing and
the tool-routing call failing, `orchestrate_generation` returns 3 test
cases all minted by the primary pass and zero examples; the last-resort
generator (which here would return a test case marked
`openai_fallback`) is never invoked — so the result is *not* supplied
by `generate_with_openai_fallback`, contrary to the claim. -/
def stubExample : DatasetExample :=
  ⟨"ex_stub001", "", "single_turn_qa", "uc_001", "tc_stub",
   ⟨[⟨Role.user, "q"⟩], Option.none⟩, "a", ["c1", "c2", "c3"], ["pol_001"], []⟩

/-- A fallback-minted test case, recognizable by its metadata. -/
def fbTc : TestCase :=
  ⟨"tc_fb001", "uc_001", "FB", "D", ["tone", "complexity"],
   [("generator", "openai_fallback")], "", [], []⟩

/-- Environment for the C1 counterexample: adapters found but every
generation call fails; the routing LLM call fails; the last-resort
generator would succeed with a marked test case. -/
def c1Env : OrchEnv :=
  { getAdapter := fun _ _ => .ok ⟨fun _ _ _ => .error "api down", fun _ => []⟩
    toolCalls := .error "llm down"
    preparePolicyDoc := .error "llm down"
    invokeDeepeval := fun _ => .error "backend down"
    invokeRagas := fun _ => .error "backend down"
    invokeGiskard := fun _ => .error "backend down"
    classifySource := fun _ _ _ => "tickets"
    fallbackGen := fun _ => .ok ([fbTc], []) }

theorem C1_counterexample_not_from_fallback :
    (orchestrateGeneration c1Env "uc_001" "UC" "d" ["pol_001"] 3 "support_bot"
       (some ["single_turn_qa"])
       (.ok ((sbCoveringRows.take 3).map (enrichVariation "support_bot")))).map
      (fun r => (r.1.map TestCase.metadata, r.2.length)) =
    .ok ([[("generator", "format_adapter")], [("generator", "format_adapter")],
          [("generator", "format_adapter")]], 0) := by
  rfl

/-- C2 (amended): for a single requested format, the primary pass
pairs every variation with a freshly minted `TestCase` whose
`parameter_variation_axes` is the clipped dominant-axis tag
(`clipAxes` keeps the tag itself whenever it has 2–3 entries) and
whose `parameters` is the variation's dict after the tag is popped;
each successful `generate_example` call contributes its transformed
example while a per-example failure skips only that example and the
iteration continues — the `TestCase` is appended before the adapter
call, so it stays even on failure. For a second requested format the
pairing does *not* hold (see the counterexample): the destructive
`params.pop` left no tag, so those test cases carry
`["default", "default"]`. -/
theorem C2_adapter_pass_pairing :
    ∀ (env : OrchEnv) (ad : AdapterBehavior) (ucId ucName ucDescr fmt case : String)
      (policyIds : List String) (minTc : Nat) (variations : List Dict),
    pyStartsWith ucId "uc_" = true →
    (∀ p ∈ policyIds, pyStartsWith p "pol_" = true) →
    env.getAdapter fmt case = .ok ad →
    minTc ≤ variations.length →
    orchestrateGeneration env ucId ucName ucDescr policyIds minTc case
      (some [fmt]) (.ok variations) =
    .ok (mapWithIdx (fun i d => mintTc ucId ucName case fmt policyIds i d) 1 variations,
         (mapWithIdx (fun i d =>
           match ad.generateExample ucId (primaryTcId ucId fmt i) (strippedParams d) with
           | .ok ex0 => some (transformExample env case ucDescr (strippedParams d) ex0)
           | .error _ => Option.none) 1 variations).reduceOption) := by
  intro env ad ucId ucName ucDescr fmt case policyIds minTc variations
    huc hpols hget hmin
  have hrv := runVariations_spec env ad ucId ucName ucDescr case fmt policyIds
    huc hpols variations 1 [] []
  rw [List.nil_append, List.nil_append] at hrv
  unfold orchestrateGeneration
  dsimp only
  rw [runFormats_single env ucId ucName ucDescr case policyIds fmt ad
    variations [] [] hget, hrv]
  dsimp only
  have hnotlt : ¬ ((mapWithIdx (fun i d =>
      mintTc ucId ucName case fmt policyIds i d) 1 variations).length < minTc) := by
    rw [mapWithIdx_length]
    omega
  rw [if_neg hnotlt]
  dsimp only
  rw [if_neg hnotlt]

/-- Environment for the C2 results: a total classifier, an adapter that
fails exactly on parameter dicts carrying the key `fail`. -/
def c2Env : OrchEnv :=
  { getAdapter := fun _ _ =>
      .ok ⟨fun _ _ p => if dcontains p "fail" then .error "boom" else .ok stubExample,
           fun _ => []⟩
    toolCalls := .error "unused"
    preparePolicyDoc := .error "unused"
    invokeDeepeval := fun _ => .error "unused"
    invokeRagas := fun _ => .error "unused"
    invokeGiskard := fun _ => .error "unused"
    classifySource := fun _ _ _ => "tickets"
    fallbackGen := fun _ => .error "unused" }

/-- An operator-quality combination with exactly two non-default axes
(`punctuation_errors`, `user_aggression`). -/
def oqCombo : Dict :=
  [("phrase_length", .s "medium"), ("punctuation_errors", .s "minor"),
   ("slang_profanity_emoji", .s "none"), ("medical_terms", .s "none"),
   ("user_aggression", .s "frustrated"), ("escalation_needed", .s "no")]

/-- C2 counterexample: with the two default `operator_quality` formats,
the variation's dominant-axis tag is `["punctuation_errors",
"user_aggression"]`, and the first format's minted `TestCase` carries
it — but the second format's `TestCase` carries `["default",
"default"]`, because the first pass destructively popped
`_variation_axes` from the shared dict. The claimed pairing therefore
fails for the second requested format. -/
theorem C2_counterexample_second_format :
    selectVariationAxes oqCombo "operator_quality" =
      ["punctuation_errors", "user_aggression"]
  ∧ (orchestrateGeneration c2Env "uc_001" "UC" "d" ["pol_001"] 1 "operator_quality"
       Option.none (.ok [enrichVariation "operator_quality" oqCombo])).map
      (fun r => r.1.map TestCase.parameter_variation_axes) =
    .ok [["punctuation_errors", "user_aggression"], ["default", "default"]] := by
  exact ⟨by rfl, by rfl⟩

/-- C2 witness: two variations, the first made to fail — the run still
returns both minted test cases and exactly the second variation's
example. -/
theorem C2_adapter_pass_pairing_witness :
    orchestrateGeneration c2Env "uc_001" "UC" "d" ["pol_001"] 1 "support_bot"
      (some ["single_turn_qa"])
      (.ok [[("fail", .b true)], [("tone", .s "negative")]]) =
    .ok (mapWithIdx (fun i d => mintTc "uc_001" "UC" "support_bot" "single_turn_qa" ["pol_001"] i d) 1
           [[("fail", .b true)], [("tone", .s "negative")]],
         (mapWithIdx (fun _ d =>
           match (if dcontains d "fail" then Except.error "boom" else Except.ok stubExample :
               Except String DatasetExample) with
           | .ok ex0 => some (transformExample c2Env "support_bot" "d" (strippedParams d) ex0)
           | .error _ => Option.none) 1
           [[("fail", .b true)], [("tone", .s "negative")]]).reduceOption)
  ∧ ((mapWithIdx (fun _ d =>
        match (if dcontains d "fail" then Except.error "boom" else Except.ok stubExample :
            Except String DatasetExample) with
        | .ok ex0 => some (transformExample c2Env "support_bot" "d" (strippedParams d) ex0)
        | .error _ => Option.none) 1
        [[("fail", .b true)], [("tone", .s "negative")]]).reduceOption).length = 1 := by
  constructor
  · exact C2_adapter_pass_pairing c2Env
      ⟨fun _ _ p => if dcontains p "fail" then .error "boom" else .ok stubExample,
       fun _ => []⟩
      "uc_001" "UC" "d" "single_turn_qa" "support_bot" ["pol_001"] 1
      [[("fail", .b true)], [("tone", .s "negative")]]
      (by decide) (by decide) rfl (by decide)
  · rfl

/-- C1 witness: a concrete all-failing environment in which the
amended theorem applies — the run returns 3 primary-pass test cases
and the error-propagation part applies to a failing fallback. -/
def c1FailEnv : OrchEnv :=
  { c1Env with fallbackGen := fun _ => .error "fallback down" }

theorem C1_forward_progress_witness :
    (∃ tcs, orchestrateGeneration c1Env "uc_001" "UC" "d" ["pol_001"] 3 "support_bot"
        (some ["single_turn_qa"])
        (.ok ((sbCoveringRows.take 3).map (enrichVariation "support_bot"))) =
        .ok (tcs, []) ∧
      3 ≤ tcs.length ∧
      ∀ tc ∈ tcs, tc.metadata = [("generator", "format_adapter")])
  ∧ (∃ n, c1FailEnv.fallbackGen n = .error "fallback down") :=
  ⟨C1_forward_progress.1 c1Env "uc_001" "UC" "d" ["pol_001"] 3 "support_bot"
     ["single_turn_qa"]
     ((sbCoveringRows.take 3).map (enrichVariation "support_bot"))
     (by decide) (by decide) (by decide) (by decide)
     (fun fmt _ => ⟨⟨fun _ _ _ => .error "api down", fun _ => []⟩, rfl,
       fun u t p => ⟨"api down", rfl⟩⟩),
   C1_forward_progress.2 c1FailEnv "uc_001" "UC" "d" ["pol_001"] 3 "support_bot"
     (some ["x"]) (.error "router failed") "fallback down" (by rfl)⟩

end DatasetGen
